import Mathlib

/-!
Shallow embedding of the medusajs product-performance utilities:
the random-string helpers of `src/scripts/utils/random-string-generator.ts`,
the combination calculator `calculateSheetCombinations`, and the sheet
product generator `generateSheetProducts`.

JavaScript's `Math.random()` draws are modelled as explicit streams of
rationals in `[0, 1)`; the comparator-based shuffle
`array.sort(() => Math.random() - 0.5)` is modelled as an oracle function
assumed (where a claim needs it) to return a permutation of its input.
JS strings are Lean `String`s; JS `Set` iteration order, string truthiness
(`""` and `undefined` are falsy), first-occurrence `String.replace` with a
string pattern, and UTF-16 code-unit comparison for the default array sort
are modelled by the dedicated `js...` helpers below.
-/

/-! ### JavaScript string-semantics helpers -/

/-- Model of the JS regexp replacement `s.replace(/\s+/g, sep)`: every maximal
run of whitespace characters is replaced by `sep`.  The Boolean argument
records whether the previous character was whitespace. -/
def jsReplaceWsRunsAux (sep : List Char) : Bool → List Char → List Char
  | _, [] => []
  | prevWs, c :: cs =>
    if c.isWhitespace then
      (if prevWs then [] else sep) ++ jsReplaceWsRunsAux sep true cs
    else c :: jsReplaceWsRunsAux sep false cs

/-- Model of JS `s.replace(/\s+/g, sep)` on strings. -/
def jsReplaceWsRuns (s : String) (sep : String) : String :=
  String.mk (jsReplaceWsRunsAux sep.toList false s.toList)

/-- Model of JS `s.replace(pat, rep)` with a plain-string pattern: only the
first occurrence of `pat` is replaced. -/
def jsReplaceFirstAux (pat rep : List Char) : List Char → List Char
  | [] => []
  | c :: cs =>
    if (c :: cs).take pat.length = pat then rep ++ (c :: cs).drop pat.length
    else c :: jsReplaceFirstAux pat rep cs

/-- Model of JS `s.replace(pat, rep)` (first occurrence only) on strings. -/
def jsReplaceFirst (s pat rep : String) : String :=
  String.mk (jsReplaceFirstAux pat.toList rep.toList s.toList)

/-- Model of JS `s.toUpperCase()` (ASCII, which is all the repository uses). -/
def jsToUpper (s : String) : String :=
  String.mk (s.toList.map Char.toUpper)

/-- Model of JS `s.toLowerCase()` (ASCII, which is all the repository uses). -/
def jsToLower (s : String) : String :=
  String.mk (s.toList.map Char.toLower)

/-- Lexicographic `≤` on character lists by code points: the order used by the
JS default array sort comparator on (BMP) strings. -/
def charListLe : List Char → List Char → Bool
  | [], _ => true
  | _ :: _, [] => false
  | a :: as, b :: bs =>
    if a.toNat < b.toNat then true
    else if b.toNat < a.toNat then false
    else charListLe as bs

/-- Model of the JS default array sort order on strings. -/
def jsStringLe (a b : String) : Bool :=
  charListLe a.toList b.toList

/-- Model of `[...new Set(list)]`: deduplication keeping first occurrences,
`seen` being the accumulator of values already emitted. -/
def jsSetDedupAux (seen : List String) : List String → List String
  | [] => []
  | a :: l =>
    if a ∈ seen then jsSetDedupAux seen l
    else a :: jsSetDedupAux (a :: seen) l

/-- Model of `[...new Set(list)]` for string lists. -/
def jsSetDedup (l : List String) : List String :=
  jsSetDedupAux [] l

/-- Model of JS `Math.floor(r * n)` for a `Math.random()` draw `r` used as an
index into a collection of size `n`. -/
def jsRandIndex (r : ℚ) (n : ℕ) : ℕ :=
  (Int.floor (r * n)).toNat

/-- Model of JS `Math.floor(r * (hi - lo) + lo)` for a `Math.random()` draw
`r`: a pseudo-random integer intended to lie in `[lo, hi)`. -/
def jsRandBetween (r : ℚ) (lo hi : ℤ) : ℤ :=
  Int.floor (r * ((hi : ℚ) - (lo : ℚ)) + (lo : ℚ))

/-- Model of JS string-or-undefined `a || b`: `a` unless it is missing or the
empty string (both falsy in JS), else `b`. -/
def jsOrElse (a b : Option String) : Option String :=
  if a.getD "" = "" then b else a

/-! ### random-string-generator.ts -/

/-- The `uppercase` charset of `generateRandomString`. -/
def uppercaseChars : String := "ABCDEFGHIJKLMNOPQRSTUVWXYZ"

/-- The `lowercase` charset of `generateRandomString`. -/
def lowercaseChars : String := "abcdefghijklmnopqrstuvwxyz"

/-- The `numbers` charset of `generateRandomString`. -/
def numberChars : String := "0123456789"

/-- The charset assembled by `generateRandomString` from its three flags. -/
def randomCharset (includeUppercase includeLowercase includeNumbers : Bool) : String :=
  (if includeUppercase then uppercaseChars else "") ++
    (if includeLowercase then lowercaseChars else "") ++
      (if includeNumbers then numberChars else "")

/-- Embedding of `generateRandomString(length, includeUppercase,
includeLowercase, includeNumbers)`.  The `Math.random()` draws of the loop are
the stream `rand`; iteration `i` picks `charset[Math.floor(rand i * charset.length)]`.
Throwing `new Error(...)` is modelled as `Except.error`. -/
def generateRandomString (length : Nat)
    (includeUppercase includeLowercase includeNumbers : Bool)
    (rand : Nat → ℚ) : Except String String :=
  let charset := randomCharset includeUppercase includeLowercase includeNumbers
  if charset = "" then
    Except.error "At least one character type must be included"
  else
    Except.ok (String.mk ((List.range length).map fun i =>
      charset.toList.getD (jsRandIndex (rand i) charset.length) ' '))

/-- The 62-character alphanumeric charset of `generateSecureRandomString`. -/
def secureCharset : String :=
  "ABCDEFGHIJKLMNOPQRSTUVWXYZabcdefghijklmnopqrstuvwxyz0123456789"

/-- Embedding of `generateSecureRandomString(length)`: `randomBytes(length)`
is the byte stream `bytes`; character `i` is `charset[bytes i % charset.length]`. -/
def generateSecureRandomString (length : Nat) (bytes : Nat → Nat) : String :=
  String.mk ((List.range length).map fun i =>
    secureCharset.toList.getD (bytes i % secureCharset.length) ' ')

/-- Embedding of `generateShortUniqueId(length)`: `Date.now()` is the
`timestamp` argument, and the random part draws from the byte stream `bytes`. -/
def generateShortUniqueId (length : Nat) (timestamp : Nat) (bytes : Nat → Nat) : String :=
  toString timestamp ++ "_" ++ generateSecureRandomString length bytes

/-- Embedding of the `UniqueStringGenerator` class: its private
`used = new Set<string>()` is a finite set of strings. -/
structure UniqueStringGenerator where
  used : Finset String

/-- The retry loop of `UniqueStringGenerator.generate`: attempt `attempt` draws
the candidate `generateSecureRandomString(length)` from the byte stream
`candBytes attempt`; `remaining` attempts are left.  Returns the candidate and
the grown set on success, `none` when all attempts are exhausted. -/
def UniqueStringGenerator.generateGo (used : Finset String) (length : Nat)
    (candBytes : Nat → Nat → Nat) : Nat → Nat → Option (String × Finset String)
  | _, 0 => none
  | attempt, remaining + 1 =>
    let candidate := generateSecureRandomString length (candBytes attempt)
    if candidate ∈ used then
      UniqueStringGenerator.generateGo used length candBytes (attempt + 1) remaining
    else some (candidate, insert candidate used)

/-- Embedding of `UniqueStringGenerator.generate(length, maxAttempts = 100)`.
On exhausting all attempts it falls back to
`generateShortUniqueId(length - 13)` (Nat subtraction models the
`length - 13` of the source for `length ≥ 13`) and records that value too. -/
def UniqueStringGenerator.generate (g : UniqueStringGenerator) (length : Nat)
    (maxAttempts : Nat) (candBytes : Nat → Nat → Nat)
    (timestamp : Nat) (fbBytes : Nat → Nat) : String × UniqueStringGenerator :=
  match UniqueStringGenerator.generateGo g.used length candBytes 0 maxAttempts with
  | some (candidate, used) => (candidate, ⟨used⟩)
  | none =>
    let fallback := generateShortUniqueId (length - 13) timestamp fbBytes
    (fallback, ⟨insert fallback g.used⟩)

/-- Embedding of `UniqueStringGenerator.reset()`. -/
def UniqueStringGenerator.reset (_g : UniqueStringGenerator) : UniqueStringGenerator :=
  ⟨∅⟩

/-- Embedding of `UniqueStringGenerator.getCount()`. -/
def UniqueStringGenerator.getCount (g : UniqueStringGenerator) : Nat :=
  g.used.card

/-- A session of `N` consecutive `generate` calls on a fresh
`UniqueStringGenerator` (the scenario of the Session Unique Generator claim):
call `k` uses candidate byte streams `streams k`, timestamp `timestamps k` and
fallback bytes `fbBytes k`.  Returns the final generator and the list of
returned values in call order. -/
def runGenerateCalls (length maxAttempts : Nat) (streams : Nat → Nat → Nat → Nat)
    (timestamps : Nat → Nat) (fbBytes : Nat → Nat → Nat) :
    Nat → UniqueStringGenerator × List String
  | 0 => (⟨∅⟩, [])
  | n + 1 =>
    let prev := runGenerateCalls length maxAttempts streams timestamps fbBytes n
    let step := prev.1.generate length maxAttempts (streams n) (timestamps n) (fbBytes n)
    (step.2, prev.2 ++ [step.1])

/-! ### calculateSheetCombinations -/

/-- The `details` record of `calculateSheetCombinations`. -/
structure SheetCombinationDetails where
  widthRange : String
  lengthRange : String
  sizeExamples : List String
deriving DecidableEq

/-- The record returned by `calculateSheetCombinations`. -/
structure SheetCombinationInfo where
  widths : Nat
  lengths : Nat
  sizes : Nat
  colors : Nat
  heights : Nat
  totalCombinations : Nat
  details : SheetCombinationDetails
deriving DecidableEq

/-- The `widths` array of `calculateSheetCombinations`:
`for (let w = 70; w <= 220; w += 10)`. -/
def combinationWidths : List Nat := List.range' 70 16 10

/-- The `lengths` array of `calculateSheetCombinations`:
`for (let l = 180; l <= 240; l += 10)`. -/
def combinationLengths : List Nat := List.range' 180 7 10

/-- Embedding of `calculateSheetCombinations()` from
`src/scripts/utils/random-string-generator.ts`: a pure function of no inputs. -/
def calculateSheetCombinations : SheetCombinationInfo :=
  let widths := combinationWidths
  let lengths := combinationLengths
  let sizes := widths.length * lengths.length
  let colors := 50
  let heights := 12
  let totalCombinations := sizes * colors * heights
  { widths := widths.length
    lengths := lengths.length
    sizes := sizes
    colors := colors
    heights := heights
    totalCombinations := totalCombinations
    details :=
      { widthRange := toString (widths.getD 0 0) ++ "-" ++ toString (widths.getD (widths.length - 1) 0)
        lengthRange := toString (lengths.getD 0 0) ++ "-" ++ toString (lengths.getD (lengths.length - 1) 0)
        sizeExamples :=
          [toString (widths.getD 0 0) ++ "x" ++ toString (lengths.getD 0 0),
            toString (widths.getD (widths.length / 2) 0) ++ "x" ++
              toString (lengths.getD (lengths.length / 2) 0),
            toString (widths.getD (widths.length - 1) 0) ++ "x" ++
              toString (lengths.getD (lengths.length - 1) 0)] } }

/-! ### product-generator data model -/

/-- The Medusa `ProductStatus` values; the generator only uses `published`. -/
inductive ProductStatus where
  | draft
  | proposed
  | published
  | rejected
deriving DecidableEq

/-- One entry of the `categoryResult` argument (a Medusa category). -/
structure ProductCategory where
  name : String
  id : String
deriving DecidableEq

/-- The `shippingProfile` argument. -/
structure ShippingProfile where
  id : String
deriving DecidableEq

/-- One entry of the `defaultSalesChannel` argument. -/
structure SalesChannel where
  id : String
deriving DecidableEq

/-- The `priceRange` option `{min, max}`. -/
structure PriceRange where
  min : Int
  max : Int
deriving DecidableEq

/-- Embedding of `ProductGeneratorOptions`; the two optional fields carry
their defaulting (`{min: 20, max: 80}` and `["eur", "usd"]`) at the use site,
as in the source's destructuring. -/
structure ProductGeneratorOptions where
  numProducts : Nat
  handleId : Int
  variantsPerProduct : Nat
  priceRange : Option PriceRange
  currencies : Option (List String)

/-- Embedding of `SheetVariantCombination`: a `{Size, Color, Height}` tuple. -/
structure SheetVariantCombination where
  Size : String
  Color : String
  Height : String
deriving DecidableEq

/-- A `{amount, currency_code}` price entry of a generated variant. -/
structure VariantPrice where
  amount : Int
  currency_code : String
deriving DecidableEq

/-- One generated variant of a `GeneratedProduct`. -/
structure GeneratedVariant where
  title : String
  sku : String
  options : SheetVariantCombination
  prices : List VariantPrice
deriving DecidableEq

/-- One `{title, values}` option declaration of a `GeneratedProduct`. -/
structure ProductOptionDecl where
  title : String
  values : List String
deriving DecidableEq

/-- A `{url}` image entry of a `GeneratedProduct`. -/
structure ProductImage where
  url : String
deriving DecidableEq

/-- A `{id}` sales-channel reference of a `GeneratedProduct`. -/
structure SalesChannelRef where
  id : String
deriving DecidableEq

/-- Embedding of the `GeneratedProduct` interface. -/
structure GeneratedProduct where
  title : String
  category_ids : List String
  description : String
  handle : String
  weight : Int
  status : ProductStatus
  shipping_profile_id : String
  images : List ProductImage
  options : List ProductOptionDecl
  variants : List GeneratedVariant
  sales_channels : List SalesChannelRef
deriving DecidableEq

instance : Inhabited SheetVariantCombination := ⟨⟨"", "", ""⟩⟩

instance : Inhabited VariantPrice := ⟨⟨0, ""⟩⟩

instance : Inhabited GeneratedVariant := ⟨⟨"", "", default, []⟩⟩

instance : Inhabited ProductOptionDecl := ⟨⟨"", []⟩⟩

instance : Inhabited GeneratedProduct :=
  ⟨⟨"", [], "", "", 0, ProductStatus.draft, "", [], [], [], []⟩⟩

/-- The randomness consumed by `generateSheetProducts`.  `shuffle i` is the
oracle for `allCombinations.sort(() => Math.random() - 0.5)` of product `i`;
the other fields are the `Math.random()` draws for the SKU suffix of variant
`(i, j)` (position `n` of the 8-character string), the price of variant
`(i, j)` in currency `k`, and the weight of product `i`. -/
structure SheetRng where
  shuffle : Nat → List SheetVariantCombination → List SheetVariantCombination
  skuRand : Nat → Nat → Nat → ℚ
  priceRand : Nat → Nat → Nat → ℚ
  weightRand : Nat → ℚ

/-! ### product-generator fixed catalogs -/

/-- The `sizes` catalog: width 70–220 step 10 crossed with length 180–240
step 10, rendered `"<width>x<length>"`. -/
def sizes : List String :=
  (List.range' 70 16 10).flatMap fun width =>
    (List.range' 180 7 10).map fun length =>
      toString width ++ "x" ++ toString length

/-- The fixed 50-entry `colors` catalog. -/
def colors : List String :=
  ["White", "Cream", "Light Blue", "Sage Green", "Soft Pink", "Charcoal",
    "Navy", "Burgundy", "Lavender", "Mint Green", "Dusty Rose", "Stone Gray",
    "Ivory", "Pearl", "Silver", "Platinum", "Champagne", "Beige", "Taupe",
    "Mocha", "Espresso", "Black", "Midnight Blue", "Royal Blue", "Teal",
    "Forest Green", "Olive", "Rose Gold", "Blush", "Coral", "Peach",
    "Apricot", "Sunshine", "Golden", "Amber", "Rust", "Terracotta",
    "Brick Red", "Wine", "Plum", "Eggplant", "Violet", "Lilac", "Periwinkle",
    "Sky Blue", "Aqua", "Turquoise", "Seafoam", "Jade", "Emerald"]

/-- The fixed 12-entry `heights` catalog. -/
def heights : List String :=
  ["20cm", "22cm", "25cm", "27cm", "30cm", "32cm", "35cm", "37cm", "40cm",
    "42cm", "45cm", "50cm"]

/-- The fixed 12-entry `sheetTypes` catalog. -/
def sheetTypes : List String :=
  ["Egyptian Cotton", "Bamboo", "Linen", "Percale", "Sateen", "Jersey",
    "Flannel", "Microfiber", "Silk", "Organic Cotton", "Tencel", "Hemp"]

/-- The `sheetDescriptions` record, as an association list. -/
def sheetDescriptions : List (String × String) :=
  [("Egyptian Cotton",
      "Premium Egyptian cotton bed sheet set. Experience luxury and comfort with our long-staple cotton sheets, known for their exceptional softness and durability."),
    ("Bamboo",
      "Eco-friendly bamboo bed sheet set. Naturally antibacterial and moisture-wicking, perfect for sensitive skin and temperature regulation."),
    ("Linen",
      "100% pure linen bed sheet set. Breathable and naturally textured, offering a relaxed, lived-in luxury that gets softer with every wash."),
    ("Percale",
      "Crisp percale weave bed sheet set. Cool and breathable with a hotel-like feel, perfect for warm sleepers who prefer a crisp finish."),
    ("Sateen",
      "Silky sateen weave bed sheet set. Lustrous and smooth with a subtle sheen, offering a luxurious drape and elegant appearance."),
    ("Jersey",
      "Soft jersey knit bed sheet set. Stretchy and cozy like your favorite t-shirt, providing ultimate comfort and easy care."),
    ("Flannel",
      "Cozy flannel bed sheet set. Brushed for extra warmth and softness, perfect for cooler months and creating a warm, inviting bed."),
    ("Microfiber",
      "Ultra-soft microfiber bed sheet set. Wrinkle-resistant and easy-care, offering comfort and convenience at an affordable price."),
    ("Silk",
      "Luxurious mulberry silk bed sheet set. Temperature-regulating and hypoallergenic, providing the ultimate in luxury bedding."),
    ("Organic Cotton",
      "Certified organic cotton bed sheet set. Grown without harmful chemicals, offering pure comfort that's gentle on you and the environment."),
    ("Tencel",
      "Sustainable Tencel bed sheet set. Made from eucalyptus fibers, naturally cooling and moisture-wicking with a silky-smooth feel."),
    ("Hemp",
      "Durable hemp bed sheet set. Naturally antimicrobial and environmentally friendly, becoming softer and more comfortable over time.")]

/-- The three fixed image URLs of every generated product. -/
def sheetProductImages : List ProductImage :=
  [⟨"https://res.cloudinary.com/do9lggzv1/image/fetch/c_limit,w_3840/f_auto/q_auto/v1/https://sadrlmedusaprod.blob.core.windows.net/medusaprod/medusaprod/produktbilleder/unikka/hmkuv0902007hb.jpg?_a=BAVAZGE70"⟩,
    ⟨"https://res.cloudinary.com/do9lggzv1/image/fetch/c_limit,w_3840/f_auto/q_auto/v1/https://sadrlmedusaprod.blob.core.windows.net/medusaprod/medusaprod/produktbilleder/unikka/hmkuv0902007blb.jpg?_a=BAVAZGE70"⟩,
    ⟨"https://res.cloudinary.com/do9lggzv1/image/fetch/c_limit,w_3840/f_auto/q_auto/v1/https://sadrlmedusaprod.blob.core.windows.net/medusaprod/medusaprod/produktbilleder/hmkuv0902007lgb.jpg?_a=BAVAZGE70"⟩]

/-- The full cartesian product `sizes × colors × heights` built by the three
nested `for` loops (the `allCombinations` array of the source). -/
def allSheetCombinations : List SheetVariantCombination :=
  sizes.flatMap fun size =>
    colors.flatMap fun color =>
      heights.map fun height => { Size := size, Color := color, Height := height }

/-! ### product-generator sort comparators -/

/-- The `a.split("x").map(Number)` key of the size sort comparator. -/
def sizeSortKey (s : String) : Nat × Nat :=
  let parts := s.splitOn "x"
  (((parts.getD 0 "").toNat?).getD 0, ((parts.getD 1 "").toNat?).getD 0)

/-- The size sort comparator `aW === bW ? aH - bH : aW - bW` as a `≤`
relation: numerically by width, then by length. -/
def sizeLe (a b : String) : Bool :=
  let ak := sizeSortKey a
  let bk := sizeSortKey b
  Nat.blt ak.1 bk.1 || (ak.1 == bk.1 && Nat.ble ak.2 bk.2)

/-- The `parseInt(a.replace("cm", ""))` key of the height sort comparator. -/
def heightSortKey (s : String) : Nat :=
  ((jsReplaceFirst s "cm" "").toNat?).getD 0

/-- The height sort comparator `aNum - bNum` as a `≤` relation: numerically
by the parsed centimetre value. -/
def heightLe (a b : String) : Bool :=
  Nat.ble (heightSortKey a) (heightSortKey b)

/-- The order `uniqueSizes.sort(...)` sorts by. -/
def SizeOrder (a b : String) : Prop := sizeLe a b = true

/-- The order `uniqueColors.sort()` (JS default comparator) sorts by. -/
def ColorOrder (a b : String) : Prop := jsStringLe a b = true

/-- The order `uniqueHeights.sort(...)` sorts by. -/
def HeightOrder (a b : String) : Prop := heightLe a b = true

instance : DecidableRel SizeOrder :=
  fun a b => instDecidableEqBool (sizeLe a b) true

instance : DecidableRel ColorOrder :=
  fun a b => instDecidableEqBool (jsStringLe a b) true

instance : DecidableRel HeightOrder :=
  fun a b => instDecidableEqBool (heightLe a b) true

/-! ### generateSheetProducts -/

/-- The sampled combinations of product `i`: the full combination list,
shuffled by the oracle and cut to
`Math.min(variantsPerProduct, allCombinations.length)`. -/
def sheetProductCombinations (options : ProductGeneratorOptions) (rng : SheetRng)
    (i : Nat) : List SheetVariantCombination :=
  (rng.shuffle i allSheetCombinations).take
    (min options.variantsPerProduct allSheetCombinations.length)

/-- The variant built for combination `combination` (index `j`) of product `i`
(sheet type `sheetType`): SKU, title and per-currency prices. -/
def mkSheetVariant (priceRange : PriceRange) (currencies : List String)
    (rng : SheetRng) (sheetType : String) (i j : Nat)
    (combination : SheetVariantCombination) : GeneratedVariant :=
  let randomSuffix := (generateRandomString 8 true true true (rng.skuRand i j)).toOption.getD ""
  let variantSku :=
    "SHEET-" ++ jsToUpper (jsReplaceWsRuns sheetType "") ++ "-" ++
      jsReplaceFirst combination.Size "x" "X" ++ "-" ++
        jsToUpper (jsReplaceWsRuns combination.Color "") ++ "-" ++
          jsReplaceFirst combination.Height "cm" "CM" ++ "-" ++ randomSuffix
  let prices := currencies.enum.map fun kcur =>
    { amount := jsRandBetween (rng.priceRand i j kcur.1) priceRange.min priceRange.max
      currency_code := kcur.2 : VariantPrice }
  { title := combination.Size ++ " / " ++ combination.Color ++ " / " ++ combination.Height
    sku := variantSku
    options := combination
    prices := prices }

/-- The body of the `for (let i = 0; i < numProducts; i++)` loop of
`generateSheetProducts`: the complete product record for index `i`. -/
def mkSheetProduct (options : ProductGeneratorOptions)
    (categoryResult : List ProductCategory) (shippingProfile : ShippingProfile)
    (defaultSalesChannel : List SalesChannel) (rng : SheetRng) (i : Nat) :
    GeneratedProduct :=
  let priceRange := options.priceRange.getD { min := 20, max := 80 }
  let currencies := options.currencies.getD ["eur", "usd"]
  let sheetType := sheetTypes.getD (i % sheetTypes.length) ""
  let productNumber := i + 1
  let shuffledCombinations := sheetProductCombinations options rng i
  let variants := shuffledCombinations.enum.map fun jc =>
    mkSheetVariant priceRange currencies rng sheetType i jc.1 jc.2
  let uniqueSizes := jsSetDedup (shuffledCombinations.map (·.Size))
  let uniqueColors := jsSetDedup (shuffledCombinations.map (·.Color))
  let uniqueHeights := jsSetDedup (shuffledCombinations.map (·.Height))
  let categoryId :=
    jsOrElse
      (jsOrElse ((categoryResult.find? fun cat => cat.name == "Sheets").map (·.id))
        ((categoryResult.find? fun cat => cat.name == "Bedding").map (·.id)))
      (categoryResult.head?.map (·.id))
  { title := sheetType ++ " Bed Sheet Set " ++ toString productNumber
    category_ids := if categoryId.getD "" = "" then [] else [categoryId.getD ""]
    description :=
      (((sheetDescriptions.find? fun p => p.1 == sheetType).map (·.2)).getD
        ("Premium " ++ jsToLower sheetType ++
          " bed sheet set. Experience luxury and comfort with our high-quality " ++
            jsToLower sheetType ++ " sheets, designed for the perfect night's sleep."))
    handle := jsReplaceWsRuns (jsToLower sheetType) "-" ++ "-sheet-set-" ++
      toString productNumber ++ "-" ++ toString options.handleId
    weight := jsRandBetween (rng.weightRand i) 600 1000
    status := ProductStatus.published
    shipping_profile_id := shippingProfile.id
    images := sheetProductImages
    options :=
      [{ title := "Size", values := List.insertionSort SizeOrder uniqueSizes },
        { title := "Color", values := List.insertionSort ColorOrder uniqueColors },
        { title := "Height", values := List.insertionSort HeightOrder uniqueHeights }]
    variants := variants
    sales_channels := [⟨(defaultSalesChannel.headD ⟨""⟩).id⟩] }

/-- Embedding of `generateSheetProducts(options, categoryResult,
shippingProfile, defaultSalesChannel)` from the product generator module. -/
def generateSheetProducts (options : ProductGeneratorOptions)
    (categoryResult : List ProductCategory) (shippingProfile : ShippingProfile)
    (defaultSalesChannel : List SalesChannel) (rng : SheetRng) :
    List GeneratedProduct :=
  (List.range options.numProducts).map
    (mkSheetProduct options categoryResult shippingProfile defaultSalesChannel rng)

/-- A concrete deterministic RNG for witnesses and counterexamples: identity
shuffle, all random draws 0. -/
def zeroRng : SheetRng :=
  { shuffle := fun _ l => l
    skuRand := fun _ _ _ => 0
    priceRand := fun _ _ _ => 0
    weightRand := fun _ => 0 }

/-- The variant SKU exactly as claim C3 words it: sheet type and color with
whitespace removed and uppercased, height with `cm` uppercased, but the size
rendered as in the catalog entry (lowercase `x` separator), followed by the
random suffix. -/
def specClaimSku (sheetType size color height suffix : String) : String :=
  "SHEET-" ++ jsToUpper (jsReplaceWsRuns sheetType "") ++ "-" ++ size ++ "-" ++
    jsToUpper (jsReplaceWsRuns color "") ++ "-" ++
      jsReplaceFirst height "cm" "CM" ++ "-" ++ suffix

/-- Category resolution exactly as claim C9 words it: the id of a category
named "Sheets" if present, else of one named "Bedding", else of the first
category, else the empty list. -/
def specResolveCategoryIds (cats : List ProductCategory) : List String :=
  match cats.find? (fun c => c.name == "Sheets") with
  | some c => [c.id]
  | none =>
    match cats.find? (fun c => c.name == "Bedding") with
    | some c => [c.id]
    | none =>
      match cats.head? with
      | some c => [c.id]
      | none => []

/-! ### Catalog facts -/

theorem sizes_length : sizes.length = 112 := by decide

theorem colors_length : colors.length = 50 := by decide

theorem heights_length : heights.length = 12 := by decide

theorem sheetTypes_length : sheetTypes.length = 12 := by decide

theorem sizes_nodup : sizes.Nodup := by decide

theorem colors_nodup : colors.Nodup := by decide

theorem heights_nodup : heights.Nodup := by decide

/-! ### The full combination list -/

theorem mem_allSheetCombinations {c : SheetVariantCombination} :
    c ∈ allSheetCombinations ↔ c.Size ∈ sizes ∧ c.Color ∈ colors ∧ c.Height ∈ heights := by
  unfold allSheetCombinations
  simp only [List.mem_flatMap, List.mem_map]
  constructor
  · rintro ⟨s, hs, col, hcol, h, hh, rfl⟩
    exact ⟨hs, hcol, hh⟩
  · rintro ⟨hs, hc, hh⟩
    exact ⟨c.Size, hs, c.Color, hc, c.Height, hh, rfl⟩

theorem allSheetCombinations_nodup : allSheetCombinations.Nodup := by
  unfold allSheetCombinations
  rw [List.nodup_flatMap]
  constructor
  · intro s _
    rw [List.nodup_flatMap]
    constructor
    · intro col _
      exact heights_nodup.map fun h1 h2 e => congrArg SheetVariantCombination.Height e
    · refine colors_nodup.imp ?_
      intro a b hab x hxa hxb
      simp only [List.mem_map] at hxa hxb
      obtain ⟨h1, _, rfl⟩ := hxa
      obtain ⟨h2, _, e⟩ := hxb
      exact hab (congrArg SheetVariantCombination.Color e).symm
  · refine sizes_nodup.imp ?_
    intro a b hab x hxa hxb
    simp only [List.mem_flatMap, List.mem_map] at hxa hxb
    obtain ⟨c1, _, h1, _, rfl⟩ := hxa
    obtain ⟨c2, _, h2, _, e⟩ := hxb
    exact hab (congrArg SheetVariantCombination.Size e).symm

theorem allSheetCombinations_length : allSheetCombinations.length = 67200 := by
  unfold allSheetCombinations
  rw [List.length_flatMap]
  have hinner : ∀ size ∈ sizes,
      (List.length ∘ fun size =>
          colors.flatMap fun color => heights.map fun height =>
            ({ Size := size, Color := color, Height := height } : SheetVariantCombination)) size
        = 600 := by
    intro size _
    simp only [Function.comp_apply, List.length_flatMap, List.map_map,
      Function.comp_def, List.length_map]
    decide
  rw [List.map_congr_left hinner]
  decide

/-! ### jsSetDedup facts -/

theorem mem_jsSetDedupAux {x : String} :
    ∀ (seen : List String) (l : List String),
      x ∈ jsSetDedupAux seen l ↔ x ∈ l ∧ x ∉ seen := by
  intro seen l
  induction l generalizing seen with
  | nil => simp [jsSetDedupAux]
  | cons a l ih =>
    by_cases ha : a ∈ seen
    · rw [jsSetDedupAux, if_pos ha, ih]
      simp only [List.mem_cons]
      constructor
      · rintro ⟨hl, hs⟩
        exact ⟨Or.inr hl, hs⟩
      · rintro ⟨hal, hs⟩
        rcases hal with rfl | hl
        · exact absurd ha hs
        · exact ⟨hl, hs⟩
    · rw [jsSetDedupAux, if_neg ha]
      simp only [List.mem_cons, ih]
      constructor
      · rintro (rfl | ⟨hl, hs⟩)
        · exact ⟨Or.inl rfl, ha⟩
        · exact ⟨Or.inr hl, fun h => hs (Or.inr h)⟩
      · rintro ⟨rfl | hl, hs⟩
        · exact Or.inl rfl
        · by_cases hxa : x = a
          · exact Or.inl hxa
          · exact Or.inr ⟨hl, fun h => (h.elim hxa hs : False)⟩

theorem jsSetDedupAux_nodup :
    ∀ (seen : List String) (l : List String), (jsSetDedupAux seen l).Nodup := by
  intro seen l
  induction l generalizing seen with
  | nil => simp [jsSetDedupAux]
  | cons a l ih =>
    by_cases ha : a ∈ seen
    · rw [jsSetDedupAux, if_pos ha]
      exact ih seen
    · rw [jsSetDedupAux, if_neg ha]
      refine List.Nodup.cons ?_ (ih (a :: seen))
      intro hmem
      exact (mem_jsSetDedupAux (a :: seen) l).mp hmem |>.2 (List.mem_cons_self a seen)

theorem mem_jsSetDedup {x : String} {l : List String} :
    x ∈ jsSetDedup l ↔ x ∈ l := by
  rw [jsSetDedup, mem_jsSetDedupAux]
  simp

theorem jsSetDedup_nodup (l : List String) : (jsSetDedup l).Nodup :=
  jsSetDedupAux_nodup [] l

/-! ### Sort order facts -/

theorem sizeLe_iff {a b : String} :
    sizeLe a b = true ↔
      ((sizeSortKey a).1 < (sizeSortKey b).1 ∨
        ((sizeSortKey a).1 = (sizeSortKey b).1 ∧ (sizeSortKey a).2 ≤ (sizeSortKey b).2)) := by
  simp [sizeLe, Nat.blt_eq, Nat.ble_eq, beq_iff_eq, Bool.or_eq_true, Bool.and_eq_true]

instance : IsTotal String SizeOrder := by
  constructor
  intro a b
  simp only [SizeOrder, sizeLe_iff]
  omega

instance : IsTrans String SizeOrder := by
  constructor
  intro a b c hab hbc
  simp only [SizeOrder, sizeLe_iff] at hab hbc ⊢
  omega

theorem heightLe_iff {a b : String} :
    heightLe a b = true ↔ heightSortKey a ≤ heightSortKey b := by
  simp [heightLe, Nat.ble_eq]

instance : IsTotal String HeightOrder := by
  constructor
  intro a b
  simp only [HeightOrder, heightLe_iff]
  omega

instance : IsTrans String HeightOrder := by
  constructor
  intro a b c hab hbc
  simp only [HeightOrder, heightLe_iff] at hab hbc ⊢
  omega

theorem charListLe_total : ∀ as bs : List Char, charListLe as bs = true ∨ charListLe bs as = true
  | [], _ => by left; rfl
  | _ :: _, [] => by right; rfl
  | a :: as, b :: bs => by
    rcases Nat.lt_trichotomy a.toNat b.toNat with h | h | h
    · left
      simp [charListLe, h]
    · rcases charListLe_total as bs with ih | ih
      · left
        simp [charListLe, h, Nat.lt_irrefl, ih]
      · right
        simp [charListLe, h, Nat.lt_irrefl, ih]
    · right
      simp [charListLe, h]

theorem charListLe_trans :
    ∀ as bs cs : List Char,
      charListLe as bs = true → charListLe bs cs = true → charListLe as cs = true
  | [], _, _, _, _ => rfl
  | _ :: _, [], _, hab, _ => absurd hab (by simp [charListLe])
  | _ :: _, _ :: _, [], _, hbc => absurd hbc (by simp [charListLe])
  | a :: as, b :: bs, c :: cs, hab, hbc => by
    rw [charListLe] at hab hbc ⊢
    by_cases h1 : a.toNat < b.toNat <;> by_cases h2 : b.toNat < c.toNat
    · simp [show a.toNat < c.toNat by omega]
    · by_cases h3 : c.toNat < b.toNat
      · simp [h2, h3] at hbc
      · simp [show a.toNat < c.toNat by omega]
    · by_cases h3 : b.toNat < a.toNat
      · simp [h1, h3] at hab
      · simp [show a.toNat < c.toNat by omega]
    · by_cases h3 : b.toNat < a.toNat
      · simp [h1, h3] at hab
      · by_cases h4 : c.toNat < b.toNat
        · simp [h2, h4] at hbc
        · have ha1 : ¬ a.toNat < c.toNat := by omega
          have ha2 : ¬ c.toNat < a.toNat := by omega
          rw [if_neg h1, if_neg h3] at hab
          rw [if_neg h2, if_neg h4] at hbc
          rw [if_neg ha1, if_neg ha2]
          exact charListLe_trans as bs cs hab hbc

instance : IsTotal String ColorOrder := by
  constructor
  intro a b
  exact charListLe_total a.toList b.toList

instance : IsTrans String ColorOrder := by
  constructor
  intro a b c hab hbc
  exact charListLe_trans a.toList b.toList c.toList hab hbc

/-! ### Random-draw range facts -/

theorem jsRandIndex_lt {r : ℚ} {n : ℕ} (h1 : r < 1) (hn : 0 < n) :
    jsRandIndex r n < n := by
  unfold jsRandIndex
  have hfl : Int.floor (r * (n : ℚ)) < (n : ℤ) := by
    rw [Int.floor_lt]
    push_cast
    calc r * (n : ℚ) < 1 * (n : ℚ) := by
          apply mul_lt_mul_of_pos_right h1
          exact_mod_cast hn
      _ = (n : ℚ) := one_mul _
  omega

theorem jsRandBetween_mem {r : ℚ} {lo hi : ℤ} (h0 : 0 ≤ r) (h1 : r < 1)
    (hlt : lo < hi) : lo ≤ jsRandBetween r lo hi ∧ jsRandBetween r lo hi < hi := by
  unfold jsRandBetween
  constructor
  · rw [Int.le_floor]
    have : (0 : ℚ) ≤ r * ((hi : ℚ) - (lo : ℚ)) := by
      apply mul_nonneg h0
      have : (lo : ℚ) < (hi : ℚ) := by exact_mod_cast hlt
      linarith
    linarith
  · rw [Int.floor_lt]
    have hd : (0 : ℚ) < (hi : ℚ) - (lo : ℚ) := by
      have : (lo : ℚ) < (hi : ℚ) := by exact_mod_cast hlt
      linarith
    have : r * ((hi : ℚ) - (lo : ℚ)) < 1 * ((hi : ℚ) - (lo : ℚ)) :=
      mul_lt_mul_of_pos_right h1 hd
    linarith

/-! ### generateRandomString facts -/

theorem randomCharset_eq_empty_iff {u l n : Bool} :
    randomCharset u l n = "" ↔ u = false ∧ l = false ∧ n = false := by
  cases u <;> cases l <;> cases n <;> simp <;> decide

theorem string_length_pos_of_ne_empty {s : String} (h : s ≠ "") : 0 < s.length := by
  cases s with
  | mk data =>
    cases data with
    | nil => exact absurd rfl h
    | cons c cs => simp [String.length]

/-- C5: the combination enumerator always reports 112 sizes (16 widths 70..220
step 10 times 7 lengths 180..240 step 10), 50 colors, 12 heights and 67200
total combinations; it is a pure function (a constant of the embedding). -/
theorem calculateSheetCombinations_spec :
    calculateSheetCombinations.sizes = 112 ∧
      calculateSheetCombinations.colors = 50 ∧
        calculateSheetCombinations.heights = 12 ∧
          calculateSheetCombinations.totalCombinations = 67200 ∧
            calculateSheetCombinations.widths = 16 ∧
              calculateSheetCombinations.lengths = 7 ∧
                combinationWidths = [70, 80, 90, 100, 110, 120, 130, 140, 150, 160,
                    170, 180, 190, 200, 210, 220] ∧
                  combinationLengths = [180, 190, 200, 210, 220, 230, 240] := by
  decide

theorem generateRandomString_eq_ok (length : Nat) (u l n : Bool) (rand : Nat → ℚ)
    (hne : randomCharset u l n ≠ "") :
    generateRandomString length u l n rand =
      Except.ok (String.mk ((List.range length).map fun i =>
        (randomCharset u l n).toList.getD
          (jsRandIndex (rand i) (randomCharset u l n).length) ' ')) := by
  rw [generateRandomString]
  exact if_neg hne

theorem generateRandomString_ok_length (length : Nat) (u l n : Bool) (rand : Nat → ℚ)
    (hne : randomCharset u l n ≠ "") :
    ((generateRandomString length u l n rand).toOption.getD "").length = length := by
  rw [generateRandomString_eq_ok _ _ _ _ _ hne]
  show ((List.range length).map _).length = length
  rw [List.length_map, List.length_range]

theorem generateRandomString_ok_chars (length : Nat) (u l n : Bool) (rand : Nat → ℚ)
    (hne : randomCharset u l n ≠ "") (hr : ∀ k, 0 ≤ rand k ∧ rand k < 1) :
    ∀ c ∈ ((generateRandomString length u l n rand).toOption.getD "").toList,
      c ∈ (randomCharset u l n).toList := by
  rw [generateRandomString_eq_ok _ _ _ _ _ hne]
  intro c hc
  have hpos : 0 < (randomCharset u l n).length := string_length_pos_of_ne_empty hne
  have hc1 : c ∈ (List.range length).map (fun i =>
      (randomCharset u l n).toList.getD
        (jsRandIndex (rand i) (randomCharset u l n).length) ' ') := hc
  obtain ⟨i, _, rfl⟩ := List.mem_map.mp hc1
  have hidx : jsRandIndex (rand i) (randomCharset u l n).length <
      (randomCharset u l n).toList.length :=
    jsRandIndex_lt (hr i).2 hpos
  rw [List.getD_eq_getElem _ _ hidx]
  exact List.getElem_mem hidx

/-- C6: `generateRandomString` fails (with the source's error) exactly when
all three character-class flags are disabled, independently of the length;
otherwise it returns a string of exactly the requested length whose
characters all come from the assembled charset (the union of the enabled
classes), given that the random draws lie in `[0, 1)`. -/
theorem generateRandomString_spec (length : Nat)
    (includeUppercase includeLowercase includeNumbers : Bool) (rand : Nat → ℚ)
    (hr : ∀ k, 0 ≤ rand k ∧ rand k < 1) :
    ((includeUppercase || includeLowercase || includeNumbers) = false →
      generateRandomString length includeUppercase includeLowercase includeNumbers rand =
        Except.error "At least one character type must be included") ∧
      ((includeUppercase || includeLowercase || includeNumbers) = true →
        ∃ s, generateRandomString length includeUppercase includeLowercase includeNumbers rand =
              Except.ok s ∧
            s.length = length ∧
              ∀ c ∈ s.toList,
                c ∈ (randomCharset includeUppercase includeLowercase includeNumbers).toList) := by
  constructor
  · intro hfalse
    simp only [Bool.or_eq_false_iff] at hfalse
    obtain ⟨⟨hu, hl⟩, hn⟩ := hfalse
    subst hu; subst hl; subst hn
    rfl
  · intro htrue
    have hne : randomCharset includeUppercase includeLowercase includeNumbers ≠ "" := by
      rw [Ne, randomCharset_eq_empty_iff]
      intro ⟨hu, hl, hn⟩
      rw [hu, hl, hn] at htrue
      exact Bool.false_ne_true htrue
    refine ⟨(generateRandomString length includeUppercase includeLowercase includeNumbers
        rand).toOption.getD "", ?_,
      generateRandomString_ok_length _ _ _ _ _ hne,
      generateRandomString_ok_chars _ _ _ _ _ hne hr⟩
    rw [generateRandomString_eq_ok _ _ _ _ _ hne]
    rfl

/-- Witness for C6 at length 3, all classes enabled, zero draws. -/
theorem generateRandomString_spec_witness :
    (∀ k : Nat, 0 ≤ (fun _ : Nat => (0 : ℚ)) k ∧ (fun _ : Nat => (0 : ℚ)) k < 1) ∧
      (((true || true || true) = false →
        generateRandomString 3 true true true (fun _ => (0 : ℚ)) =
          Except.error "At least one character type must be included") ∧
        ((true || true || true) = true →
          ∃ s, generateRandomString 3 true true true (fun _ => (0 : ℚ)) = Except.ok s ∧
              s.length = 3 ∧ ∀ c ∈ s.toList, c ∈ (randomCharset true true true).toList)) :=
  ⟨fun _ => ⟨le_refl 0, zero_lt_one⟩,
    generateRandomString_spec 3 true true true (fun _ => (0 : ℚ))
      (fun _ => ⟨le_refl 0, zero_lt_one⟩)⟩

/-! ### UniqueStringGenerator facts -/

theorem generateGo_some {used : Finset String} {length : Nat}
    {candBytes : Nat → Nat → Nat} :
    ∀ {attempt remaining : Nat} {v : String} {u : Finset String},
      UniqueStringGenerator.generateGo used length candBytes attempt remaining =
          some (v, u) →
        v ∉ used ∧ u = insert v used := by
  intro attempt remaining
  induction remaining generalizing attempt with
  | zero => intro v u h; exact absurd h (by simp [UniqueStringGenerator.generateGo])
  | succ r ih =>
    intro v u h
    rw [UniqueStringGenerator.generateGo] at h
    by_cases hmem : generateSecureRandomString length (candBytes attempt) ∈ used
    · rw [if_pos hmem] at h
      exact ih h
    · rw [if_neg hmem] at h
      obtain ⟨rfl, rfl⟩ : generateSecureRandomString length (candBytes attempt) = v ∧
          insert (generateSecureRandomString length (candBytes attempt)) used = u := by
        have := Option.some.inj h
        exact ⟨congrArg Prod.fst this, congrArg Prod.snd this⟩
      exact ⟨hmem, rfl⟩

theorem generateGo_none {used : Finset String} {length : Nat}
    {candBytes : Nat → Nat → Nat} :
    ∀ {attempt remaining : Nat},
      (∀ t, attempt ≤ t → t < attempt + remaining →
        generateSecureRandomString length (candBytes t) ∈ used) →
      UniqueStringGenerator.generateGo used length candBytes attempt remaining = none := by
  intro attempt remaining
  induction remaining generalizing attempt with
  | zero => intro _; rfl
  | succ r ih =>
    intro h
    rw [UniqueStringGenerator.generateGo]
    have hmem : generateSecureRandomString length (candBytes attempt) ∈ used :=
      h attempt (Nat.le_refl _) (by omega)
    rw [if_pos hmem]
    exact ih fun t ht1 ht2 => h t (by omega) (by omega)

theorem generate_fst_mem_used (g : UniqueStringGenerator) (length maxAttempts : Nat)
    (candBytes : Nat → Nat → Nat) (timestamp : Nat) (fbBytes : Nat → Nat) :
    (g.generate length maxAttempts candBytes timestamp fbBytes).1 ∈
      (g.generate length maxAttempts candBytes timestamp fbBytes).2.used := by
  rw [UniqueStringGenerator.generate]
  cases hgo : UniqueStringGenerator.generateGo g.used length candBytes 0 maxAttempts with
  | none => exact Finset.mem_insert_self _ _
  | some p =>
    obtain ⟨v, u⟩ := p
    obtain ⟨hni, rfl⟩ := generateGo_some hgo
    exact Finset.mem_insert_self _ _

theorem runGenerateCalls_invariant (length maxAttempts : Nat)
    (streams : Nat → Nat → Nat → Nat) (timestamps : Nat → Nat)
    (fbBytes : Nat → Nat → Nat) :
    ∀ N : Nat,
      (∀ k, k < N →
        (UniqueStringGenerator.generateGo
          (runGenerateCalls length maxAttempts streams timestamps fbBytes k).1.used
          length (streams k) 0 maxAttempts).isSome = true) →
      (runGenerateCalls length maxAttempts streams timestamps fbBytes N).2.length = N ∧
        (runGenerateCalls length maxAttempts streams timestamps fbBytes N).1.used.card = N ∧
          (runGenerateCalls length maxAttempts streams timestamps fbBytes N).2.Nodup ∧
            ∀ v ∈ (runGenerateCalls length maxAttempts streams timestamps fbBytes N).2,
              v ∈ (runGenerateCalls length maxAttempts streams timestamps fbBytes N).1.used := by
  intro N
  induction N with
  | zero =>
    intro _
    refine ⟨rfl, rfl, List.nodup_nil, ?_⟩
    intro v hv
    exact absurd hv (List.not_mem_nil v)
  | succ n ih =>
    intro hnofb
    obtain ⟨ihlen, ihcard, ihnodup, ihmem⟩ := ih fun k hk => hnofb k (by omega)
    have hsome := hnofb n (by omega)
    obtain ⟨p, hp⟩ := Option.isSome_iff_exists.mp hsome
    obtain ⟨v, u⟩ := p
    obtain ⟨hni, rfl⟩ := generateGo_some hp
    have hstep :
        (runGenerateCalls length maxAttempts streams timestamps fbBytes n).1.generate
            length maxAttempts (streams n) (timestamps n) (fbBytes n) =
          (v, ⟨insert v (runGenerateCalls length maxAttempts streams timestamps fbBytes n).1.used⟩) := by
      rw [UniqueStringGenerator.generate, hp]
    have hrun :
        runGenerateCalls length maxAttempts streams timestamps fbBytes (n + 1) =
          (⟨insert v (runGenerateCalls length maxAttempts streams timestamps fbBytes n).1.used⟩,
            (runGenerateCalls length maxAttempts streams timestamps fbBytes n).2 ++ [v]) := by
      rw [runGenerateCalls, hstep]
    rw [hrun]
    refine ⟨?_, ?_, ?_, ?_⟩
    · simp [ihlen]
    · simp only []
      rw [Finset.card_insert_of_not_mem hni, ihcard]
    · rw [List.nodup_append]
      refine ⟨ihnodup, List.nodup_singleton v, ?_⟩
      intro x hx hx1
      rw [List.mem_singleton] at hx1
      subst hx1
      exact hni (ihmem x hx)
    · intro w hw
      rcases List.mem_append.mp hw with hw1 | hw2
      · exact Finset.mem_insert_of_mem (ihmem w hw1)
      · rw [List.mem_singleton] at hw2
        subst hw2
        exact Finset.mem_insert_self _ _

/-- C7: starting from a fresh generator, after `N` `generate` calls that all
succeed without reaching the fallback, `getCount` returns `N`, the `N`
returned values are pairwise distinct, and each call's returned value is a
member of the used set immediately after that call. -/
theorem uniqueStringGenerator_session_invariant (length maxAttempts : Nat)
    (streams : Nat → Nat → Nat → Nat) (timestamps : Nat → Nat)
    (fbBytes : Nat → Nat → Nat) (N : Nat)
    (hnofb : ∀ k, k < N →
      (UniqueStringGenerator.generateGo
        (runGenerateCalls length maxAttempts streams timestamps fbBytes k).1.used
        length (streams k) 0 maxAttempts).isSome = true) :
    (runGenerateCalls length maxAttempts streams timestamps fbBytes N).1.getCount = N ∧
      (runGenerateCalls length maxAttempts streams timestamps fbBytes N).2.Nodup ∧
        ∀ k, k < N →
          (runGenerateCalls length maxAttempts streams timestamps fbBytes (k + 1)).2.getLastD "" ∈
            (runGenerateCalls length maxAttempts streams timestamps fbBytes (k + 1)).1.used := by
  obtain ⟨_, hcard, hnodup, _⟩ :=
    runGenerateCalls_invariant length maxAttempts streams timestamps fbBytes N hnofb
  refine ⟨hcard, hnodup, ?_⟩
  intro k _
  rw [runGenerateCalls]
  rw [List.getLastD_concat]
  exact generate_fst_mem_used _ _ _ _ _ _

/-- C8: when all `maxAttempts` candidates drawn by `generate` are already in
the used set, the call does not fail: it returns
`generateShortUniqueId(length - 13)`, a string of the form
`"<timestamp>_<secureRandomString(length - 13)>"`, and records that value in
the used set. -/
theorem uniqueStringGenerator_fallback (g : UniqueStringGenerator)
    (length maxAttempts : Nat) (candBytes : Nat → Nat → Nat) (timestamp : Nat)
    (fbBytes : Nat → Nat)
    (h : ∀ t, t < maxAttempts →
      generateSecureRandomString length (candBytes t) ∈ g.used) :
    (g.generate length maxAttempts candBytes timestamp fbBytes).1 =
        generateShortUniqueId (length - 13) timestamp fbBytes ∧
      (g.generate length maxAttempts candBytes timestamp fbBytes).1 =
          toString timestamp ++ "_" ++ generateSecureRandomString (length - 13) fbBytes ∧
        (g.generate length maxAttempts candBytes timestamp fbBytes).2.used =
            insert (generateShortUniqueId (length - 13) timestamp fbBytes) g.used ∧
          (g.generate length maxAttempts candBytes timestamp fbBytes).1 ∈
            (g.generate length maxAttempts candBytes timestamp fbBytes).2.used := by
  have hnone : UniqueStringGenerator.generateGo g.used length candBytes 0 maxAttempts = none :=
    generateGo_none fun t ht1 ht2 => h t (by omega)
  rw [UniqueStringGenerator.generate, hnone]
  exact ⟨rfl, rfl, rfl, Finset.mem_insert_self _ _⟩

/-- Witness for C7: two fallback-free calls with distinct byte streams. -/
theorem uniqueStringGenerator_session_invariant_witness :
    (∀ k, k < 2 →
      (UniqueStringGenerator.generateGo
        (runGenerateCalls 1 1 (fun k _ _ => k) (fun _ => 0) (fun _ _ => 0) k).1.used
        1 ((fun k _ _ => k) k) 0 1).isSome = true) ∧
      ((runGenerateCalls 1 1 (fun k _ _ => k) (fun _ => 0) (fun _ _ => 0) 2).1.getCount = 2 ∧
        (runGenerateCalls 1 1 (fun k _ _ => k) (fun _ => 0) (fun _ _ => 0) 2).2.Nodup ∧
          ∀ k, k < 2 →
            (runGenerateCalls 1 1 (fun k _ _ => k) (fun _ => 0) (fun _ _ => 0) (k + 1)).2.getLastD "" ∈
              (runGenerateCalls 1 1 (fun k _ _ => k) (fun _ => 0) (fun _ _ => 0) (k + 1)).1.used) :=
  ⟨by decide,
    uniqueStringGenerator_session_invariant 1 1 (fun k _ _ => k) (fun _ => 0) (fun _ _ => 0) 2
      (by decide)⟩

/-- Witness for C8: one attempt whose candidate is already used. -/
theorem uniqueStringGenerator_fallback_witness :
    (∀ t, t < 1 →
      generateSecureRandomString 14 ((fun _ _ => 0) t) ∈
        (⟨{"AAAAAAAAAAAAAA"}⟩ : UniqueStringGenerator).used) ∧
      (((⟨{"AAAAAAAAAAAAAA"}⟩ : UniqueStringGenerator).generate 14 1 (fun _ _ => 0) 5
            (fun _ => 0)).1 = generateShortUniqueId (14 - 13) 5 (fun _ => 0) ∧
        ((⟨{"AAAAAAAAAAAAAA"}⟩ : UniqueStringGenerator).generate 14 1 (fun _ _ => 0) 5
            (fun _ => 0)).1 =
            toString 5 ++ "_" ++ generateSecureRandomString (14 - 13) (fun _ => 0) ∧
          ((⟨{"AAAAAAAAAAAAAA"}⟩ : UniqueStringGenerator).generate 14 1 (fun _ _ => 0) 5
              (fun _ => 0)).2.used =
              insert (generateShortUniqueId (14 - 13) 5 (fun _ => 0))
                (⟨{"AAAAAAAAAAAAAA"}⟩ : UniqueStringGenerator).used ∧
            ((⟨{"AAAAAAAAAAAAAA"}⟩ : UniqueStringGenerator).generate 14 1 (fun _ _ => 0) 5
                (fun _ => 0)).1 ∈
              ((⟨{"AAAAAAAAAAAAAA"}⟩ : UniqueStringGenerator).generate 14 1 (fun _ _ => 0) 5
                  (fun _ => 0)).2.used) :=
  ⟨by decide,
    uniqueStringGenerator_fallback ⟨{"AAAAAAAAAAAAAA"}⟩ 14 1 (fun _ _ => 0) 5 (fun _ => 0)
      (by decide)⟩

/-! ### generateSheetProducts extraction facts -/

theorem generateSheetProducts_length (options : ProductGeneratorOptions)
    (categoryResult : List ProductCategory) (shippingProfile : ShippingProfile)
    (defaultSalesChannel : List SalesChannel) (rng : SheetRng) :
    (generateSheetProducts options categoryResult shippingProfile defaultSalesChannel
      rng).length = options.numProducts := by
  rw [generateSheetProducts, List.length_map, List.length_range]

theorem generateSheetProducts_getD (options : ProductGeneratorOptions)
    (categoryResult : List ProductCategory) (shippingProfile : ShippingProfile)
    (defaultSalesChannel : List SalesChannel) (rng : SheetRng) {i : Nat}
    (hi : i < options.numProducts) :
    (generateSheetProducts options categoryResult shippingProfile defaultSalesChannel
        rng).getD i default =
      mkSheetProduct options categoryResult shippingProfile defaultSalesChannel rng i := by
  rw [generateSheetProducts]
  rw [List.getD_eq_getElem _ _ (by rw [List.length_map, List.length_range]; exact hi)]
  rw [List.getElem_map]
  congr 1
  exact List.getElem_range _ _

theorem mkSheetProduct_title (options : ProductGeneratorOptions)
    (categoryResult : List ProductCategory) (shippingProfile : ShippingProfile)
    (defaultSalesChannel : List SalesChannel) (rng : SheetRng) (i : Nat) :
    (mkSheetProduct options categoryResult shippingProfile defaultSalesChannel rng i).title =
      sheetTypes.getD (i % sheetTypes.length) "" ++ " Bed Sheet Set " ++ toString (i + 1) := rfl

theorem mkSheetProduct_handle (options : ProductGeneratorOptions)
    (categoryResult : List ProductCategory) (shippingProfile : ShippingProfile)
    (defaultSalesChannel : List SalesChannel) (rng : SheetRng) (i : Nat) :
    (mkSheetProduct options categoryResult shippingProfile defaultSalesChannel rng i).handle =
      jsReplaceWsRuns (jsToLower (sheetTypes.getD (i % sheetTypes.length) "")) "-" ++
        "-sheet-set-" ++ toString (i + 1) ++ "-" ++ toString options.handleId := rfl

theorem mkSheetProduct_status (options : ProductGeneratorOptions)
    (categoryResult : List ProductCategory) (shippingProfile : ShippingProfile)
    (defaultSalesChannel : List SalesChannel) (rng : SheetRng) (i : Nat) :
    (mkSheetProduct options categoryResult shippingProfile defaultSalesChannel rng i).status =
      ProductStatus.published := rfl

theorem mkSheetProduct_shipping (options : ProductGeneratorOptions)
    (categoryResult : List ProductCategory) (shippingProfile : ShippingProfile)
    (defaultSalesChannel : List SalesChannel) (rng : SheetRng) (i : Nat) :
    (mkSheetProduct options categoryResult shippingProfile defaultSalesChannel rng
      i).shipping_profile_id = shippingProfile.id := rfl

theorem mkSheetProduct_images (options : ProductGeneratorOptions)
    (categoryResult : List ProductCategory) (shippingProfile : ShippingProfile)
    (defaultSalesChannel : List SalesChannel) (rng : SheetRng) (i : Nat) :
    (mkSheetProduct options categoryResult shippingProfile defaultSalesChannel rng i).images =
      sheetProductImages := rfl

theorem mkSheetProduct_variants (options : ProductGeneratorOptions)
    (categoryResult : List ProductCategory) (shippingProfile : ShippingProfile)
    (defaultSalesChannel : List SalesChannel) (rng : SheetRng) (i : Nat) :
    (mkSheetProduct options categoryResult shippingProfile defaultSalesChannel rng i).variants =
      (sheetProductCombinations options rng i).enum.map fun jc =>
        mkSheetVariant (options.priceRange.getD { min := 20, max := 80 })
          (options.currencies.getD ["eur", "usd"]) rng
          (sheetTypes.getD (i % sheetTypes.length) "") i jc.1 jc.2 := rfl

theorem mkSheetProduct_options (options : ProductGeneratorOptions)
    (categoryResult : List ProductCategory) (shippingProfile : ShippingProfile)
    (defaultSalesChannel : List SalesChannel) (rng : SheetRng) (i : Nat) :
    (mkSheetProduct options categoryResult shippingProfile defaultSalesChannel rng i).options =
      [{ title := "Size",
          values := List.insertionSort SizeOrder
            (jsSetDedup ((sheetProductCombinations options rng i).map (·.Size))) },
        { title := "Color",
          values := List.insertionSort ColorOrder
            (jsSetDedup ((sheetProductCombinations options rng i).map (·.Color))) },
        { title := "Height",
          values := List.insertionSort HeightOrder
            (jsSetDedup ((sheetProductCombinations options rng i).map (·.Height))) }] := rfl

theorem sheetProduct_variants_map_options (options : ProductGeneratorOptions)
    (categoryResult : List ProductCategory) (shippingProfile : ShippingProfile)
    (defaultSalesChannel : List SalesChannel) (rng : SheetRng) (i : Nat) :
    (mkSheetProduct options categoryResult shippingProfile defaultSalesChannel rng
        i).variants.map (·.options) = sheetProductCombinations options rng i := by
  rw [mkSheetProduct_variants, List.map_map]
  have hcomp : ((fun v : GeneratedVariant => v.options) ∘
      fun jc : Nat × SheetVariantCombination =>
        mkSheetVariant (options.priceRange.getD { min := 20, max := 80 })
          (options.currencies.getD ["eur", "usd"]) rng
          (sheetTypes.getD (i % sheetTypes.length) "") i jc.1 jc.2) = Prod.snd :=
    funext fun jc => rfl
  rw [hcomp, List.enum_map_snd]

/-! ### Combination sampling facts -/

theorem sheetProductCombinations_length (options : ProductGeneratorOptions)
    (rng : SheetRng) (i : Nat) (hshuffle : ∀ i l, (rng.shuffle i l).Perm l) :
    (sheetProductCombinations options rng i).length =
      min options.variantsPerProduct 67200 := by
  rw [sheetProductCombinations, List.length_take,
    (hshuffle i allSheetCombinations).length_eq, allSheetCombinations_length]
  omega

theorem sheetProductCombinations_nodup (options : ProductGeneratorOptions)
    (rng : SheetRng) (i : Nat) (hshuffle : ∀ i l, (rng.shuffle i l).Perm l) :
    (sheetProductCombinations options rng i).Nodup :=
  (List.take_sublist _ _).nodup
    ((hshuffle i allSheetCombinations).nodup_iff.mpr allSheetCombinations_nodup)

theorem sheetProductCombinations_subset (options : ProductGeneratorOptions)
    (rng : SheetRng) (i : Nat) (hshuffle : ∀ i l, (rng.shuffle i l).Perm l)
    {c : SheetVariantCombination} (hc : c ∈ sheetProductCombinations options rng i) :
    c ∈ allSheetCombinations :=
  (hshuffle i allSheetCombinations).mem_iff.mp (List.take_subset _ _ hc)

/-- C1: every generated product has exactly `min(variantsPerProduct, 67200)`
variants, the variants' `{Size, Color, Height}` tuples are pairwise distinct
within the product, and each component is a member of the corresponding fixed
catalog — given that the shuffle oracle permutes its input. -/
theorem generateSheetProducts_variants_spec (options : ProductGeneratorOptions)
    (categoryResult : List ProductCategory) (shippingProfile : ShippingProfile)
    (defaultSalesChannel : List SalesChannel) (rng : SheetRng)
    (hshuffle : ∀ i l, (rng.shuffle i l).Perm l) (i : Nat)
    (hi : i < options.numProducts) :
    ((generateSheetProducts options categoryResult shippingProfile defaultSalesChannel
          rng).getD i default).variants.length = min options.variantsPerProduct 67200 ∧
      (((generateSheetProducts options categoryResult shippingProfile defaultSalesChannel
          rng).getD i default).variants.map (·.options)).Nodup ∧
        ∀ v ∈ ((generateSheetProducts options categoryResult shippingProfile
            defaultSalesChannel rng).getD i default).variants,
          v.options.Size ∈ sizes ∧ v.options.Color ∈ colors ∧ v.options.Height ∈ heights := by
  rw [generateSheetProducts_getD _ _ _ _ _ hi]
  have hmapopt := sheetProduct_variants_map_options options categoryResult shippingProfile
    defaultSalesChannel rng i
  refine ⟨?_, ?_, ?_⟩
  · have hlen : (mkSheetProduct options categoryResult shippingProfile defaultSalesChannel
        rng i).variants.length = (sheetProductCombinations options rng i).length := by
      rw [← hmapopt, List.length_map]
    rw [hlen, sheetProductCombinations_length options rng i hshuffle]
  · rw [hmapopt]
    exact sheetProductCombinations_nodup options rng i hshuffle
  · intro v hv
    have hvo : v.options ∈ (mkSheetProduct options categoryResult shippingProfile
        defaultSalesChannel rng i).variants.map (·.options) :=
      List.mem_map_of_mem _ hv
    rw [hmapopt] at hvo
    exact mem_allSheetCombinations.mp
      (sheetProductCombinations_subset options rng i hshuffle hvo)

/-- Witness for C1 at one product with one variant and the identity shuffle. -/
theorem generateSheetProducts_variants_spec_witness :
    (∀ i l, (zeroRng.shuffle i l).Perm l) ∧ 0 < 1 ∧
      (((generateSheetProducts ⟨1, 0, 1, none, none⟩ [] ⟨"sp"⟩ [⟨"sc"⟩]
            zeroRng).getD 0 default).variants.length = min 1 67200 ∧
        (((generateSheetProducts ⟨1, 0, 1, none, none⟩ [] ⟨"sp"⟩ [⟨"sc"⟩]
            zeroRng).getD 0 default).variants.map (·.options)).Nodup ∧
          ∀ v ∈ ((generateSheetProducts ⟨1, 0, 1, none, none⟩ [] ⟨"sp"⟩ [⟨"sc"⟩]
              zeroRng).getD 0 default).variants,
            v.options.Size ∈ sizes ∧ v.options.Color ∈ colors ∧ v.options.Height ∈ heights) :=
  ⟨fun _ l => List.Perm.refl l, Nat.zero_lt_one,
    generateSheetProducts_variants_spec ⟨1, 0, 1, none, none⟩ [] ⟨"sp"⟩ [⟨"sc"⟩] zeroRng
      (fun _ l => List.Perm.refl l) 0 Nat.zero_lt_one⟩

/-- C2: the generator returns exactly `numProducts` products; product `i` has
sheet type `sheetTypes[i % 12]`, title `"<SheetType> Bed Sheet Set <i+1>"` and
handle `"<sheettype-kebab>-sheet-set-<i+1>-<handleId>"`. -/
theorem generateSheetProducts_count_and_naming (options : ProductGeneratorOptions)
    (categoryResult : List ProductCategory) (shippingProfile : ShippingProfile)
    (defaultSalesChannel : List SalesChannel) (rng : SheetRng) (i : Nat)
    (hi : i < options.numProducts) :
    (generateSheetProducts options categoryResult shippingProfile defaultSalesChannel
        rng).length = options.numProducts ∧
      ((generateSheetProducts options categoryResult shippingProfile defaultSalesChannel
          rng).getD i default).title =
          sheetTypes.getD (i % 12) "" ++ " Bed Sheet Set " ++ toString (i + 1) ∧
        ((generateSheetProducts options categoryResult shippingProfile defaultSalesChannel
            rng).getD i default).handle =
          jsReplaceWsRuns (jsToLower (sheetTypes.getD (i % 12) "")) "-" ++ "-sheet-set-" ++
            toString (i + 1) ++ "-" ++ toString options.handleId := by
  refine ⟨generateSheetProducts_length options categoryResult shippingProfile
    defaultSalesChannel rng, ?_, ?_⟩
  · rw [generateSheetProducts_getD _ _ _ _ _ hi, mkSheetProduct_title, sheetTypes_length]
  · rw [generateSheetProducts_getD _ _ _ _ _ hi, mkSheetProduct_handle, sheetTypes_length]

/-- Witness for C2 at three products, index 2. -/
theorem generateSheetProducts_count_and_naming_witness :
    2 < 3 ∧
      ((generateSheetProducts ⟨3, 7, 0, none, none⟩ [] ⟨"sp"⟩ [⟨"sc"⟩] zeroRng).length = 3 ∧
        ((generateSheetProducts ⟨3, 7, 0, none, none⟩ [] ⟨"sp"⟩ [⟨"sc"⟩]
            zeroRng).getD 2 default).title =
            sheetTypes.getD (2 % 12) "" ++ " Bed Sheet Set " ++ toString (2 + 1) ∧
          ((generateSheetProducts ⟨3, 7, 0, none, none⟩ [] ⟨"sp"⟩ [⟨"sc"⟩]
              zeroRng).getD 2 default).handle =
            jsReplaceWsRuns (jsToLower (sheetTypes.getD (2 % 12) "")) "-" ++ "-sheet-set-" ++
              toString (2 + 1) ++ "-" ++ toString (7 : Int)) :=
  ⟨by decide,
    generateSheetProducts_count_and_naming ⟨3, 7, 0, none, none⟩ [] ⟨"sp"⟩ [⟨"sc"⟩] zeroRng 2
      (by decide)⟩

/-- C10: every generated product is published, carries the supplied shipping
profile's id, and the fixed three-image list, whatever the caller options. -/
theorem generateSheetProducts_fixed_fields (options : ProductGeneratorOptions)
    (categoryResult : List ProductCategory) (shippingProfile : ShippingProfile)
    (defaultSalesChannel : List SalesChannel) (rng : SheetRng) (i : Nat)
    (hi : i < options.numProducts) :
    ((generateSheetProducts options categoryResult shippingProfile defaultSalesChannel
          rng).getD i default).status = ProductStatus.published ∧
      ((generateSheetProducts options categoryResult shippingProfile defaultSalesChannel
          rng).getD i default).shipping_profile_id = shippingProfile.id ∧
        ((generateSheetProducts options categoryResult shippingProfile defaultSalesChannel
            rng).getD i default).images = sheetProductImages ∧
          sheetProductImages.length = 3 := by
  rw [generateSheetProducts_getD _ _ _ _ _ hi]
  exact ⟨mkSheetProduct_status _ _ _ _ _ _, mkSheetProduct_shipping _ _ _ _ _ _,
    mkSheetProduct_images _ _ _ _ _ _, rfl⟩

/-- Witness for C10 at one product. -/
theorem generateSheetProducts_fixed_fields_witness :
    0 < 1 ∧
      (((generateSheetProducts ⟨1, 0, 0, none, none⟩ [] ⟨"profile-1"⟩ [⟨"sc"⟩]
            zeroRng).getD 0 default).status = ProductStatus.published ∧
        ((generateSheetProducts ⟨1, 0, 0, none, none⟩ [] ⟨"profile-1"⟩ [⟨"sc"⟩]
            zeroRng).getD 0 default).shipping_profile_id = "profile-1" ∧
          ((generateSheetProducts ⟨1, 0, 0, none, none⟩ [] ⟨"profile-1"⟩ [⟨"sc"⟩]
              zeroRng).getD 0 default).images = sheetProductImages ∧
            sheetProductImages.length = 3) :=
  ⟨Nat.zero_lt_one,
    generateSheetProducts_fixed_fields ⟨1, 0, 0, none, none⟩ [] ⟨"profile-1"⟩ [⟨"sc"⟩] zeroRng 0
      Nat.zero_lt_one⟩

/-- C4: each product's declared option value lists are the duplicate-free
projections of its variants' combinations onto Size, Color and Height,
sorted by the respective comparator orders (numeric width-then-length,
lexicographic, numeric height). -/
theorem generateSheetProducts_option_values (options : ProductGeneratorOptions)
    (categoryResult : List ProductCategory) (shippingProfile : ShippingProfile)
    (defaultSalesChannel : List SalesChannel) (rng : SheetRng) (i : Nat)
    (hi : i < options.numProducts) :
    ((generateSheetProducts options categoryResult shippingProfile defaultSalesChannel
          rng).getD i default).options.length = 3 ∧
      ((((generateSheetProducts options categoryResult shippingProfile defaultSalesChannel
          rng).getD i default).options.getD 0 default).title = "Size" ∧
        ((((generateSheetProducts options categoryResult shippingProfile defaultSalesChannel
            rng).getD i default).options.getD 0 default).values).Nodup ∧
          (∀ v, v ∈ (((generateSheetProducts options categoryResult shippingProfile
              defaultSalesChannel rng).getD i default).options.getD 0 default).values ↔
            v ∈ ((generateSheetProducts options categoryResult shippingProfile
              defaultSalesChannel rng).getD i default).variants.map
                (fun w => w.options.Size)) ∧
            ((((generateSheetProducts options categoryResult shippingProfile
                defaultSalesChannel rng).getD i default).options.getD 0
                  default).values).Sorted SizeOrder) ∧
        ((((generateSheetProducts options categoryResult shippingProfile defaultSalesChannel
            rng).getD i default).options.getD 1 default).title = "Color" ∧
          ((((generateSheetProducts options categoryResult shippingProfile defaultSalesChannel
              rng).getD i default).options.getD 1 default).values).Nodup ∧
            (∀ v, v ∈ (((generateSheetProducts options categoryResult shippingProfile
                defaultSalesChannel rng).getD i default).options.getD 1 default).values ↔
              v ∈ ((generateSheetProducts options categoryResult shippingProfile
                defaultSalesChannel rng).getD i default).variants.map
                  (fun w => w.options.Color)) ∧
              ((((generateSheetProducts options categoryResult shippingProfile
                  defaultSalesChannel rng).getD i default).options.getD 1
                    default).values).Sorted ColorOrder) ∧
          ((((generateSheetProducts options categoryResult shippingProfile defaultSalesChannel
              rng).getD i default).options.getD 2 default).title = "Height" ∧
            ((((generateSheetProducts options categoryResult shippingProfile
                defaultSalesChannel rng).getD i default).options.getD 2
                  default).values).Nodup ∧
              (∀ v, v ∈ (((generateSheetProducts options categoryResult shippingProfile
                  defaultSalesChannel rng).getD i default).options.getD 2 default).values ↔
                v ∈ ((generateSheetProducts options categoryResult shippingProfile
                  defaultSalesChannel rng).getD i default).variants.map
                    (fun w => w.options.Height)) ∧
                ((((generateSheetProducts options categoryResult shippingProfile
                    defaultSalesChannel rng).getD i default).options.getD 2
                      default).values).Sorted HeightOrder) := by
  rw [generateSheetProducts_getD _ _ _ _ _ hi]
  have hmapopt := sheetProduct_variants_map_options options categoryResult shippingProfile
    defaultSalesChannel rng i
  have hmapfield : ∀ f : SheetVariantCombination → String,
      (mkSheetProduct options categoryResult shippingProfile defaultSalesChannel
        rng i).variants.map (fun w => f w.options) =
        (sheetProductCombinations options rng i).map f := by
    intro f
    have : (fun w : GeneratedVariant => f w.options) =
        (f ∘ fun w : GeneratedVariant => w.options) := rfl
    rw [this, ← List.map_map, hmapopt]
  rw [mkSheetProduct_options]
  simp only [List.getD_cons_zero, List.getD_cons_succ]
  refine ⟨rfl, ⟨trivial, ?_, ?_, ?_⟩, ⟨trivial, ?_, ?_, ?_⟩, ⟨trivial, ?_, ?_, ?_⟩⟩
  · exact (List.perm_insertionSort _ _).nodup_iff.mpr (jsSetDedup_nodup _)
  · intro v
    rw [hmapfield (fun c => c.Size)]
    rw [(List.perm_insertionSort _ _).mem_iff, mem_jsSetDedup]
  · exact List.sorted_insertionSort SizeOrder _
  · exact (List.perm_insertionSort _ _).nodup_iff.mpr (jsSetDedup_nodup _)
  · intro v
    rw [hmapfield (fun c => c.Color)]
    rw [(List.perm_insertionSort _ _).mem_iff, mem_jsSetDedup]
  · exact List.sorted_insertionSort ColorOrder _
  · exact (List.perm_insertionSort _ _).nodup_iff.mpr (jsSetDedup_nodup _)
  · intro v
    rw [hmapfield (fun c => c.Height)]
    rw [(List.perm_insertionSort _ _).mem_iff, mem_jsSetDedup]
  · exact List.sorted_insertionSort HeightOrder _

/-- Witness for C4 at one product with two variants, identity shuffle. -/
theorem generateSheetProducts_option_values_witness :
    0 < 1 ∧
      (((generateSheetProducts ⟨1, 0, 2, none, none⟩ [] ⟨"sp"⟩ [⟨"sc"⟩]
            zeroRng).getD 0 default).options.length = 3 ∧
        ((((generateSheetProducts ⟨1, 0, 2, none, none⟩ [] ⟨"sp"⟩ [⟨"sc"⟩]
            zeroRng).getD 0 default).options.getD 0 default).title = "Size" ∧
          ((((generateSheetProducts ⟨1, 0, 2, none, none⟩ [] ⟨"sp"⟩ [⟨"sc"⟩]
              zeroRng).getD 0 default).options.getD 0 default).values).Nodup ∧
            (∀ v, v ∈ (((generateSheetProducts ⟨1, 0, 2, none, none⟩ [] ⟨"sp"⟩ [⟨"sc"⟩]
                zeroRng).getD 0 default).options.getD 0 default).values ↔
              v ∈ ((generateSheetProducts ⟨1, 0, 2, none, none⟩ [] ⟨"sp"⟩ [⟨"sc"⟩]
                zeroRng).getD 0 default).variants.map (fun w => w.options.Size)) ∧
              ((((generateSheetProducts ⟨1, 0, 2, none, none⟩ [] ⟨"sp"⟩ [⟨"sc"⟩]
                  zeroRng).getD 0 default).options.getD 0
                    default).values).Sorted SizeOrder) ∧
          ((((generateSheetProducts ⟨1, 0, 2, none, none⟩ [] ⟨"sp"⟩ [⟨"sc"⟩]
              zeroRng).getD 0 default).options.getD 1 default).title = "Color" ∧
            ((((generateSheetProducts ⟨1, 0, 2, none, none⟩ [] ⟨"sp"⟩ [⟨"sc"⟩]
                zeroRng).getD 0 default).options.getD 1 default).values).Nodup ∧
              (∀ v, v ∈ (((generateSheetProducts ⟨1, 0, 2, none, none⟩ [] ⟨"sp"⟩ [⟨"sc"⟩]
                  zeroRng).getD 0 default).options.getD 1 default).values ↔
                v ∈ ((generateSheetProducts ⟨1, 0, 2, none, none⟩ [] ⟨"sp"⟩ [⟨"sc"⟩]
                  zeroRng).getD 0 default).variants.map (fun w => w.options.Color)) ∧
                ((((generateSheetProducts ⟨1, 0, 2, none, none⟩ [] ⟨"sp"⟩ [⟨"sc"⟩]
                    zeroRng).getD 0 default).options.getD 1
                      default).values).Sorted ColorOrder) ∧
            ((((generateSheetProducts ⟨1, 0, 2, none, none⟩ [] ⟨"sp"⟩ [⟨"sc"⟩]
                zeroRng).getD 0 default).options.getD 2 default).title = "Height" ∧
              ((((generateSheetProducts ⟨1, 0, 2, none, none⟩ [] ⟨"sp"⟩ [⟨"sc"⟩]
                  zeroRng).getD 0 default).options.getD 2 default).values).Nodup ∧
                (∀ v, v ∈ (((generateSheetProducts ⟨1, 0, 2, none, none⟩ [] ⟨"sp"⟩ [⟨"sc"⟩]
                    zeroRng).getD 0 default).options.getD 2 default).values ↔
                  v ∈ ((generateSheetProducts ⟨1, 0, 2, none, none⟩ [] ⟨"sp"⟩ [⟨"sc"⟩]
                    zeroRng).getD 0 default).variants.map (fun w => w.options.Height)) ∧
                  ((((generateSheetProducts ⟨1, 0, 2, none, none⟩ [] ⟨"sp"⟩ [⟨"sc"⟩]
                      zeroRng).getD 0 default).options.getD 2
                        default).values).Sorted HeightOrder)) :=
  ⟨Nat.zero_lt_one,
    generateSheetProducts_option_values ⟨1, 0, 2, none, none⟩ [] ⟨"sp"⟩ [⟨"sc"⟩] zeroRng 0
      Nat.zero_lt_one⟩

/-! ### Variant field facts -/

theorem mkSheetVariant_sku (priceRange : PriceRange) (currencies : List String)
    (rng : SheetRng) (sheetType : String) (i j : Nat)
    (combination : SheetVariantCombination) :
    (mkSheetVariant priceRange currencies rng sheetType i j combination).sku =
      "SHEET-" ++ jsToUpper (jsReplaceWsRuns sheetType "") ++ "-" ++
        jsReplaceFirst combination.Size "x" "X" ++ "-" ++
          jsToUpper (jsReplaceWsRuns combination.Color "") ++ "-" ++
            jsReplaceFirst combination.Height "cm" "CM" ++ "-" ++
              (generateRandomString 8 true true true (rng.skuRand i j)).toOption.getD "" := rfl

theorem mkSheetVariant_title (priceRange : PriceRange) (currencies : List String)
    (rng : SheetRng) (sheetType : String) (i j : Nat)
    (combination : SheetVariantCombination) :
    (mkSheetVariant priceRange currencies rng sheetType i j combination).title =
      combination.Size ++ " / " ++ combination.Color ++ " / " ++ combination.Height := rfl

theorem mkSheetVariant_options (priceRange : PriceRange) (currencies : List String)
    (rng : SheetRng) (sheetType : String) (i j : Nat)
    (combination : SheetVariantCombination) :
    (mkSheetVariant priceRange currencies rng sheetType i j combination).options =
      combination := rfl

theorem mkSheetVariant_prices (priceRange : PriceRange) (currencies : List String)
    (rng : SheetRng) (sheetType : String) (i j : Nat)
    (combination : SheetVariantCombination) :
    (mkSheetVariant priceRange currencies rng sheetType i j combination).prices =
      currencies.enum.map fun kcur =>
        { amount := jsRandBetween (rng.priceRand i j kcur.1) priceRange.min priceRange.max
          currency_code := kcur.2 : VariantPrice } := rfl

theorem sheetProduct_variant_getD (options : ProductGeneratorOptions)
    (categoryResult : List ProductCategory) (shippingProfile : ShippingProfile)
    (defaultSalesChannel : List SalesChannel) (rng : SheetRng) (i j : Nat)
    (hj : j < (sheetProductCombinations options rng i).length) :
    (mkSheetProduct options categoryResult shippingProfile defaultSalesChannel rng
        i).variants.getD j default =
      mkSheetVariant (options.priceRange.getD { min := 20, max := 80 })
        (options.currencies.getD ["eur", "usd"]) rng
        (sheetTypes.getD (i % sheetTypes.length) "") i j
        ((sheetProductCombinations options rng i).getD j default) := by
  rw [mkSheetProduct_variants]
  have hj1 : j < ((sheetProductCombinations options rng i).enum).length := by
    rw [List.enum_length]; exact hj
  have hj2 : j < (((sheetProductCombinations options rng i).enum).map fun jc =>
      mkSheetVariant (options.priceRange.getD { min := 20, max := 80 })
        (options.currencies.getD ["eur", "usd"]) rng
        (sheetTypes.getD (i % sheetTypes.length) "") i jc.1 jc.2).length := by
    rw [List.length_map]; exact hj1
  rw [List.getD_eq_getElem _ _ hj2, List.getElem_map, List.getElem_enum,
    List.getD_eq_getElem _ _ hj]

theorem sheetProduct_variants_length (options : ProductGeneratorOptions)
    (categoryResult : List ProductCategory) (shippingProfile : ShippingProfile)
    (defaultSalesChannel : List SalesChannel) (rng : SheetRng) (i : Nat) :
    (mkSheetProduct options categoryResult shippingProfile defaultSalesChannel rng
        i).variants.length = (sheetProductCombinations options rng i).length := by
  rw [mkSheetProduct_variants, List.length_map, List.enum_length]

/-- C3 (amended): every generated variant's SKU is
`"SHEET-<TYPE>-<WIDTHXLENGTH>-<COLOR>-<HEIGHTCM>-<suffix>"` with the size's
`x` separator uppercased to `X` (not as in the catalog entry) and an 8-char
alphanumeric random suffix; the title is `"<Size> / <Color> / <Height>"`; the
prices hold one entry per requested currency with
`amount = floor(r * (max - min) + min)`, an integer in `[min, max)` whenever
`min < max`. -/
theorem generateSheetProducts_variant_fields (options : ProductGeneratorOptions)
    (categoryResult : List ProductCategory) (shippingProfile : ShippingProfile)
    (defaultSalesChannel : List SalesChannel) (rng : SheetRng)
    (hsku : ∀ i j k, 0 ≤ rng.skuRand i j k ∧ rng.skuRand i j k < 1)
    (hprice : ∀ i j k, 0 ≤ rng.priceRand i j k ∧ rng.priceRand i j k < 1)
    (hrange : (options.priceRange.getD { min := 20, max := 80 }).min <
      (options.priceRange.getD { min := 20, max := 80 }).max)
    (i : Nat) (hi : i < options.numProducts) (j : Nat)
    (hj : j < ((generateSheetProducts options categoryResult shippingProfile
      defaultSalesChannel rng).getD i default).variants.length) :
    (((generateSheetProducts options categoryResult shippingProfile defaultSalesChannel
          rng).getD i default).variants.getD j default).sku =
        "SHEET-" ++ jsToUpper (jsReplaceWsRuns (sheetTypes.getD (i % 12) "") "") ++ "-" ++
          jsReplaceFirst (((generateSheetProducts options categoryResult shippingProfile
              defaultSalesChannel rng).getD i default).variants.getD j
                default).options.Size "x" "X" ++ "-" ++
            jsToUpper (jsReplaceWsRuns (((generateSheetProducts options categoryResult
              shippingProfile defaultSalesChannel rng).getD i default).variants.getD j
                default).options.Color "") ++ "-" ++
              jsReplaceFirst (((generateSheetProducts options categoryResult shippingProfile
                defaultSalesChannel rng).getD i default).variants.getD j
                  default).options.Height "cm" "CM" ++ "-" ++
                (generateRandomString 8 true true true (rng.skuRand i j)).toOption.getD "" ∧
      ((generateRandomString 8 true true true (rng.skuRand i j)).toOption.getD "").length = 8 ∧
        (∀ ch ∈ ((generateRandomString 8 true true true
            (rng.skuRand i j)).toOption.getD "").toList,
          ch ∈ (randomCharset true true true).toList) ∧
          (((generateSheetProducts options categoryResult shippingProfile defaultSalesChannel
              rng).getD i default).variants.getD j default).title =
              (((generateSheetProducts options categoryResult shippingProfile
                defaultSalesChannel rng).getD i default).variants.getD j
                  default).options.Size ++ " / " ++
                (((generateSheetProducts options categoryResult shippingProfile
                  defaultSalesChannel rng).getD i default).variants.getD j
                    default).options.Color ++ " / " ++
                  (((generateSheetProducts options categoryResult shippingProfile
                    defaultSalesChannel rng).getD i default).variants.getD j
                      default).options.Height ∧
            (((generateSheetProducts options categoryResult shippingProfile
                defaultSalesChannel rng).getD i default).variants.getD j default).prices =
                ((options.currencies.getD ["eur", "usd"]).enum.map fun kcur =>
                  { amount := jsRandBetween (rng.priceRand i j kcur.1)
                      (options.priceRange.getD { min := 20, max := 80 }).min
                      (options.priceRange.getD { min := 20, max := 80 }).max
                    currency_code := kcur.2 : VariantPrice }) ∧
              ∀ p ∈ (((generateSheetProducts options categoryResult shippingProfile
                  defaultSalesChannel rng).getD i default).variants.getD j default).prices,
                (options.priceRange.getD { min := 20, max := 80 }).min ≤ p.amount ∧
                  p.amount < (options.priceRange.getD { min := 20, max := 80 }).max := by
  rw [generateSheetProducts_getD _ _ _ _ _ hi] at hj ⊢
  have hj1 : j < (sheetProductCombinations options rng i).length := by
    rw [← sheetProduct_variants_length options categoryResult shippingProfile
      defaultSalesChannel rng i]
    exact hj
  rw [sheetProduct_variant_getD _ _ _ _ _ _ _ hj1]
  have hne : randomCharset true true true ≠ "" := by decide
  refine ⟨?_, generateRandomString_ok_length _ _ _ _ _ hne,
    generateRandomString_ok_chars _ _ _ _ _ hne (fun k => hsku i j k), ?_, ?_, ?_⟩
  · rw [mkSheetVariant_sku, mkSheetVariant_options, sheetTypes_length]
  · rw [mkSheetVariant_title, mkSheetVariant_options]
  · rw [mkSheetVariant_prices]
  · intro p hp
    rw [mkSheetVariant_prices] at hp
    obtain ⟨kcur, _, rfl⟩ := List.mem_map.mp hp
    exact jsRandBetween_mem (hprice i j kcur.1).1 (hprice i j kcur.1).2 hrange

/-! ### Concrete evaluation of the zero-draw RNG -/

theorem jsRandIndex_zero (n : ℕ) : jsRandIndex 0 n = 0 := by
  unfold jsRandIndex
  rw [zero_mul, Int.floor_zero]
  rfl

theorem gen8_zero :
    (generateRandomString 8 true true true (fun _ => (0 : ℚ))).toOption.getD "" =
      "AAAAAAAA" := by
  rw [generateRandomString_eq_ok 8 true true true _ (by decide)]
  simp only [jsRandIndex_zero]
  decide

theorem combos_one_zeroRng : sheetProductCombinations ⟨1, 0, 1, none, none⟩ zeroRng 0 =
    [⟨"70x180", "White", "20cm"⟩] := by
  rw [sheetProductCombinations]
  show allSheetCombinations.take (min 1 allSheetCombinations.length) = _
  rw [allSheetCombinations_length]
  decide

theorem variants_one_zeroRng :
    ((generateSheetProducts ⟨1, 0, 1, none, none⟩ [] ⟨"sp"⟩ [⟨"sc"⟩] zeroRng).getD 0
        default).variants =
      [mkSheetVariant ⟨20, 80⟩ ["eur", "usd"] zeroRng "Egyptian Cotton" 0 0
        ⟨"70x180", "White", "20cm"⟩] := by
  rw [generateSheetProducts_getD _ _ _ _ _ (by decide), mkSheetProduct_variants,
    combos_one_zeroRng]
  rfl

/-- Counterexample to C3 as stated: the sampled combination of the one
generated variant is `{70x180, White, 20cm}` and its suffix draw yields
`"AAAAAAAA"`, but the generated SKU renders the size as `70X180` (the `x`
uppercased by `Size.replace("x", "X")`), not `70x180` "as in the catalog
entry" as the claim's SKU template requires. -/
theorem sheetVariant_sku_counterexample :
    ((generateSheetProducts ⟨1, 0, 1, none, none⟩ [] ⟨"sp"⟩ [⟨"sc"⟩] zeroRng).getD 0
        default).variants.map (fun v => v.options) = [⟨"70x180", "White", "20cm"⟩] ∧
      ((generateSheetProducts ⟨1, 0, 1, none, none⟩ [] ⟨"sp"⟩ [⟨"sc"⟩] zeroRng).getD 0
          default).variants.map (fun v => v.sku) =
          ["SHEET-EGYPTIANCOTTON-70X180-WHITE-20CM-AAAAAAAA"] ∧
        specClaimSku "Egyptian Cotton" "70x180" "White" "20cm" "AAAAAAAA" =
            "SHEET-EGYPTIANCOTTON-70x180-WHITE-20CM-AAAAAAAA" ∧
          ((generateSheetProducts ⟨1, 0, 1, none, none⟩ [] ⟨"sp"⟩ [⟨"sc"⟩] zeroRng).getD 0
              default).variants.map (fun v => v.sku) ≠
            [specClaimSku "Egyptian Cotton" "70x180" "White" "20cm" "AAAAAAAA"] := by
  have hsku : ((generateSheetProducts ⟨1, 0, 1, none, none⟩ [] ⟨"sp"⟩ [⟨"sc"⟩]
      zeroRng).getD 0 default).variants.map (fun v => v.sku) =
      ["SHEET-EGYPTIANCOTTON-70X180-WHITE-20CM-AAAAAAAA"] := by
    rw [variants_one_zeroRng]
    show [(mkSheetVariant ⟨20, 80⟩ ["eur", "usd"] zeroRng "Egyptian Cotton" 0 0
      ⟨"70x180", "White", "20cm"⟩).sku] = _
    rw [mkSheetVariant_sku]
    have h8 : (generateRandomString 8 true true true
        (zeroRng.skuRand 0 0)).toOption.getD "" = "AAAAAAAA" := gen8_zero
    rw [h8]
    decide
  refine ⟨?_, hsku, by decide, ?_⟩
  · rw [variants_one_zeroRng]
    rfl
  · rw [hsku, show specClaimSku "Egyptian Cotton" "70x180" "White" "20cm" "AAAAAAAA" =
      "SHEET-EGYPTIANCOTTON-70x180-WHITE-20CM-AAAAAAAA" by decide]
    decide

/-- Witness for the amended C3 at one product with one variant, zero draws. -/
theorem generateSheetProducts_variant_fields_witness :
    (∀ i j k, 0 ≤ zeroRng.skuRand i j k ∧ zeroRng.skuRand i j k < 1) ∧
      (∀ i j k, 0 ≤ zeroRng.priceRand i j k ∧ zeroRng.priceRand i j k < 1) ∧
        ((⟨1, 0, 1, none, none⟩ : ProductGeneratorOptions).priceRange.getD
            { min := 20, max := 80 }).min <
          ((⟨1, 0, 1, none, none⟩ : ProductGeneratorOptions).priceRange.getD
            { min := 20, max := 80 }).max ∧
          0 < (⟨1, 0, 1, none, none⟩ : ProductGeneratorOptions).numProducts ∧
            0 < ((generateSheetProducts ⟨1, 0, 1, none, none⟩ [] ⟨"sp"⟩ [⟨"sc"⟩]
              zeroRng).getD 0 default).variants.length ∧
              ((((generateSheetProducts ⟨1, 0, 1, none, none⟩ [] ⟨"sp"⟩ [⟨"sc"⟩]
                    zeroRng).getD 0 default).variants.getD 0 default).sku =
                  "SHEET-" ++ jsToUpper (jsReplaceWsRuns (sheetTypes.getD (0 % 12) "") "") ++
                    "-" ++
                    jsReplaceFirst (((generateSheetProducts ⟨1, 0, 1, none, none⟩ [] ⟨"sp"⟩
                        [⟨"sc"⟩] zeroRng).getD 0 default).variants.getD 0
                          default).options.Size "x" "X" ++ "-" ++
                      jsToUpper (jsReplaceWsRuns (((generateSheetProducts
                        ⟨1, 0, 1, none, none⟩ [] ⟨"sp"⟩ [⟨"sc"⟩] zeroRng).getD 0
                          default).variants.getD 0 default).options.Color "") ++ "-" ++
                        jsReplaceFirst (((generateSheetProducts ⟨1, 0, 1, none, none⟩ []
                          ⟨"sp"⟩ [⟨"sc"⟩] zeroRng).getD 0 default).variants.getD 0
                            default).options.Height "cm" "CM" ++ "-" ++
                          (generateRandomString 8 true true true
                            (zeroRng.skuRand 0 0)).toOption.getD "" ∧
                ((generateRandomString 8 true true true
                    (zeroRng.skuRand 0 0)).toOption.getD "").length = 8 ∧
                  (∀ ch ∈ ((generateRandomString 8 true true true
                      (zeroRng.skuRand 0 0)).toOption.getD "").toList,
                    ch ∈ (randomCharset true true true).toList) ∧
                    (((generateSheetProducts ⟨1, 0, 1, none, none⟩ [] ⟨"sp"⟩ [⟨"sc"⟩]
                        zeroRng).getD 0 default).variants.getD 0 default).title =
                        (((generateSheetProducts ⟨1, 0, 1, none, none⟩ [] ⟨"sp"⟩ [⟨"sc"⟩]
                          zeroRng).getD 0 default).variants.getD 0
                            default).options.Size ++ " / " ++
                          (((generateSheetProducts ⟨1, 0, 1, none, none⟩ [] ⟨"sp"⟩ [⟨"sc"⟩]
                            zeroRng).getD 0 default).variants.getD 0
                              default).options.Color ++ " / " ++
                            (((generateSheetProducts ⟨1, 0, 1, none, none⟩ [] ⟨"sp"⟩
                              [⟨"sc"⟩] zeroRng).getD 0 default).variants.getD 0
                                default).options.Height ∧
                      (((generateSheetProducts ⟨1, 0, 1, none, none⟩ [] ⟨"sp"⟩ [⟨"sc"⟩]
                          zeroRng).getD 0 default).variants.getD 0 default).prices =
                          (((⟨1, 0, 1, none, none⟩ :
                            ProductGeneratorOptions).currencies.getD
                              ["eur", "usd"]).enum.map fun kcur =>
                            { amount := jsRandBetween (zeroRng.priceRand 0 0 kcur.1)
                                ((⟨1, 0, 1, none, none⟩ :
                                  ProductGeneratorOptions).priceRange.getD
                                    { min := 20, max := 80 }).min
                                ((⟨1, 0, 1, none, none⟩ :
                                  ProductGeneratorOptions).priceRange.getD
                                    { min := 20, max := 80 }).max
                              currency_code := kcur.2 : VariantPrice }) ∧
                        ∀ p ∈ (((generateSheetProducts ⟨1, 0, 1, none, none⟩ [] ⟨"sp"⟩
                            [⟨"sc"⟩] zeroRng).getD 0 default).variants.getD 0
                              default).prices,
                          ((⟨1, 0, 1, none, none⟩ :
                            ProductGeneratorOptions).priceRange.getD
                              { min := 20, max := 80 }).min ≤ p.amount ∧
                            p.amount < ((⟨1, 0, 1, none, none⟩ :
                              ProductGeneratorOptions).priceRange.getD
                                { min := 20, max := 80 }).max) :=
  ⟨fun _ _ _ => ⟨le_refl 0, zero_lt_one⟩, fun _ _ _ => ⟨le_refl 0, zero_lt_one⟩,
    by decide, Nat.zero_lt_one, by rw [variants_one_zeroRng]; decide,
    generateSheetProducts_variant_fields ⟨1, 0, 1, none, none⟩ [] ⟨"sp"⟩ [⟨"sc"⟩] zeroRng
      (fun _ _ _ => ⟨le_refl 0, zero_lt_one⟩) (fun _ _ _ => ⟨le_refl 0, zero_lt_one⟩)
      (by decide) 0 Nat.zero_lt_one 0 (by rw [variants_one_zeroRng]; decide)⟩

/-! ### Category resolution facts -/

theorem jsCategoryIds_eq_spec (cats : List ProductCategory)
    (hids : ∀ c ∈ cats, c.id ≠ "") :
    (if (jsOrElse (jsOrElse ((cats.find? fun cat => cat.name == "Sheets").map (·.id))
          ((cats.find? fun cat => cat.name == "Bedding").map (·.id)))
            (cats.head?.map (·.id))).getD "" = "" then ([] : List String)
      else [(jsOrElse (jsOrElse ((cats.find? fun cat => cat.name == "Sheets").map (·.id))
          ((cats.find? fun cat => cat.name == "Bedding").map (·.id)))
            (cats.head?.map (·.id))).getD ""]) = specResolveCategoryIds cats := by
  rcases hfs : cats.find? (fun cat => cat.name == "Sheets") with _ | c1
  · rcases hfb : cats.find? (fun cat => cat.name == "Bedding") with _ | c2
    · rcases hh : cats.head? with _ | c3
      · simp [jsOrElse, specResolveCategoryIds, hfs, hfb, hh]
      · have hc3 : c3 ∈ cats := by
          cases cats with
          | nil => exact absurd hh (by simp)
          | cons a l =>
            rw [List.head?_cons] at hh
            injection hh with h
            subst h
            exact List.mem_cons_self _ _
        have hne := hids c3 hc3
        simp [jsOrElse, specResolveCategoryIds, hfs, hfb, hh, hne]
    · have hne := hids c2 (List.mem_of_find?_eq_some hfb)
      simp [jsOrElse, specResolveCategoryIds, hfs, hfb, hne]
  · have hne := hids c1 (List.mem_of_find?_eq_some hfs)
    simp [jsOrElse, specResolveCategoryIds, hfs, hne]

/-- C9 (amended): provided every supplied category has a non-empty id (JS
truthiness skips empty-string ids), `category_ids` follows the claimed
precedence — the "Sheets" category's id, else the "Bedding" category's id,
else the first category's id, else the empty list — and never fails. -/
theorem generateSheetProducts_category_resolution (options : ProductGeneratorOptions)
    (categoryResult : List ProductCategory) (shippingProfile : ShippingProfile)
    (defaultSalesChannel : List SalesChannel) (rng : SheetRng)
    (hids : ∀ c ∈ categoryResult, c.id ≠ "") (i : Nat)
    (hi : i < options.numProducts) :
    ((generateSheetProducts options categoryResult shippingProfile defaultSalesChannel
        rng).getD i default).category_ids = specResolveCategoryIds categoryResult := by
  rw [generateSheetProducts_getD _ _ _ _ _ hi]
  exact jsCategoryIds_eq_spec categoryResult hids

/-- Counterexample to C9 as stated: with a category named "Sheets" whose id is
the empty string followed by a "Bedding" category, the code's JS `||` chain
skips the falsy empty id and returns the Bedding id, while the claim's
precedence demands the Sheets id. -/
theorem categoryResolution_counterexample :
    ((generateSheetProducts ⟨1, 0, 0, none, none⟩
        [⟨"Sheets", ""⟩, ⟨"Bedding", "bedding-1"⟩] ⟨"sp"⟩ [⟨"sc"⟩] zeroRng).getD 0
          default).category_ids = ["bedding-1"] ∧
      specResolveCategoryIds [⟨"Sheets", ""⟩, ⟨"Bedding", "bedding-1"⟩] = [""] ∧
        ((generateSheetProducts ⟨1, 0, 0, none, none⟩
            [⟨"Sheets", ""⟩, ⟨"Bedding", "bedding-1"⟩] ⟨"sp"⟩ [⟨"sc"⟩] zeroRng).getD 0
              default).category_ids ≠
          specResolveCategoryIds [⟨"Sheets", ""⟩, ⟨"Bedding", "bedding-1"⟩] := by
  have h1 : ((generateSheetProducts ⟨1, 0, 0, none, none⟩
      [⟨"Sheets", ""⟩, ⟨"Bedding", "bedding-1"⟩] ⟨"sp"⟩ [⟨"sc"⟩] zeroRng).getD 0
        default).category_ids = ["bedding-1"] := by
    rw [generateSheetProducts_getD _ _ _ _ _ (by decide)]
    decide
  refine ⟨h1, by decide, ?_⟩
  rw [h1, show specResolveCategoryIds [⟨"Sheets", ""⟩, ⟨"Bedding", "bedding-1"⟩] = [""]
    by decide]
  decide

/-- Witness for the amended C9 with a single "Bedding" category. -/
theorem generateSheetProducts_category_resolution_witness :
    (∀ c ∈ [(⟨"Bedding", "b1"⟩ : ProductCategory)], c.id ≠ "") ∧ 0 < 1 ∧
      ((generateSheetProducts ⟨1, 0, 0, none, none⟩ [⟨"Bedding", "b1"⟩] ⟨"sp"⟩ [⟨"sc"⟩]
          zeroRng).getD 0 default).category_ids =
        specResolveCategoryIds [⟨"Bedding", "b1"⟩] :=
  ⟨by decide, Nat.zero_lt_one,
    generateSheetProducts_category_resolution ⟨1, 0, 0, none, none⟩ [⟨"Bedding", "b1"⟩]
      ⟨"sp"⟩ [⟨"sc"⟩] zeroRng (by decide) 0 Nat.zero_lt_one⟩
